import Mathlib

/-!
Betabotz Paygate SDK: a shallow embedding of `src/index.js` and of the helpers of
`examples/advanced.js` and `examples/webhook-server.js`.

The SDK is a thin JavaScript class around an axios instance.  The embedding keeps the
JavaScript value model explicit (values, truthiness, property reads, object literals with
spread), models a thrown value as the error side of `Except`, and records every request
handed to the transport in a log.
-/

namespace BetabotzPaygate

/-! ## JavaScript values -/

/-- A JavaScript number: a finite value, `NaN`, or one of the two infinities.
Finite doubles are rationals; `0` and `-0` are not told apart (both are falsy). -/
inductive JSNum where
  | fin (q : ℚ)
  | nan
  | inf (negative : Bool)
  deriving DecidableEq

/-- A JavaScript value: the primitives, arrays, and plain objects as ordered lists of own
properties.  An entry shadowed by an earlier entry with the same key is not a property of
the object (reads and enumeration see the first entry only). -/
inductive JSVal where
  | undefined
  | null
  | bool (b : Bool)
  | num (n : JSNum)
  | str (s : String)
  | arr (items : List JSVal)
  | obj (fields : List (String × JSVal))

/-- ToBoolean: `undefined`, `null`, `false`, `0`, `NaN` and `""` are falsy, all else truthy. -/
def truthy : JSVal → Bool
  | .undefined => false
  | .null => false
  | .bool b => b
  | .num (.fin q) => decide (q ≠ 0)
  | .num .nan => false
  | .num (.inf _) => true
  | .str s => decide (s ≠ "")
  | .arr _ => true
  | .obj _ => true

/-- The operator `a || b`. -/
def jsOr (a b : JSVal) : JSVal :=
  if truthy a then a else b

/-- The value of the first entry with key `k`. -/
def lookupField (k : String) : List (String × JSVal) → Option JSVal
  | [] => none
  | (k', v) :: rest => if k' = k then some v else lookupField k rest

/-- The `TypeError` thrown when a property of `undefined` or `null` is read (the engine's
message text is not modelled). -/
def typeError : JSVal :=
  .obj [("name", .str "TypeError")]

/-- Property read `v.k`, for the property names the SDK reads (`apiKey`, `baseURL`,
`timeout`, `amount`, `action`, `app`, `notification`, `message`, `response`, `request`,
`status`, `data`) and those the examples read (`pay_id`, `raw`, `paidAt`, `notes`,
`callback_url`, `return_url`): none of them is a property of a primitive or of an array,
so they read as `undefined` there; reading from `undefined` or `null` throws.  The
property `length` is read through `getLength`. -/
def getProp (v : JSVal) (k : String) : Except JSVal JSVal :=
  match v with
  | .undefined => throw typeError
  | .null => throw typeError
  | .obj fields => pure ((lookupField k fields).getD .undefined)
  | _ => pure .undefined

/-- Whether `k` is an own property. -/
def hasOwn (v : JSVal) (k : String) : Bool :=
  match v with
  | .obj fields => (lookupField k fields).isSome
  | _ => false

/-- CreateDataProperty on a property list: replace the value in place when the key
exists, append otherwise. -/
def setField (k : String) (v : JSVal) : List (String × JSVal) → List (String × JSVal)
  | [] => [(k, v)]
  | (k', v') :: rest => if k' = k then (k', v) :: rest else (k', v') :: setField k v rest

/-- Assignment `target.k = v` on an object. -/
def setProp (target : JSVal) (k : String) (v : JSVal) : JSVal :=
  match target with
  | .obj fields => .obj (setField k v fields)
  | other => other

/-- The own properties of a property list, in order, each key once (first entry). -/
def ownEntriesOf : List (String × JSVal) → List (String × JSVal)
  | [] => []
  | (k, v) :: rest => (k, v) :: (ownEntriesOf rest).filter (fun e => decide (e.1 ≠ k))

/-- The own enumerable properties copied by `...v` in an object literal: those of an
object, the indexed elements of an array or string (one entry per character; characters
outside the basic plane are not split into code units), nothing for the other primitives
(spreading `null` or `undefined` copies nothing and does not throw). -/
def ownEntries : JSVal → List (String × JSVal)
  | .obj fields => ownEntriesOf fields
  | .arr items => items.enum.map (fun p => (toString p.1, p.2))
  | .str s => s.toList.enum.map (fun p => (toString p.1, JSVal.str (String.singleton p.2)))
  | _ => []

/-- Object spread `{...target, ...src}` onto the properties collected so far. -/
def spreadInto (target : List (String × JSVal)) (src : JSVal) : List (String × JSVal) :=
  (ownEntries src).foldl (fun acc e => setField e.1 e.2 acc) target

mutual
/-- ToString on plain data; `numToString` is the engine's Number::toString. -/
def toStringJS (numToString : JSNum → String) : JSVal → String
  | .undefined => "undefined"
  | .null => "null"
  | .bool b => if b then "true" else "false"
  | .num n => numToString n
  | .str s => s
  | .arr items => ",".intercalate (elemsJS numToString items)
  | .obj _ => "[object Object]"
termination_by structural v => v
/-- The pieces an array is joined from (ToString on an array joins its elements with a
comma): `null` and `undefined` elements print as empty. -/
def elemsJS (numToString : JSNum → String) : List JSVal → List String
  | [] => []
  | .undefined :: rest => "" :: elemsJS numToString rest
  | .null :: rest => "" :: elemsJS numToString rest
  | v :: rest => toStringJS numToString v :: elemsJS numToString rest
termination_by structural items => items
end

/-- An `Error` instance with the given message (its only modelled own property). -/
def errorWithMessage (message : String) : JSVal :=
  .obj [("message", .str message)]

/-- The expression `new Error(m)`: the message is `ToString(m)`, and no own `message` is
created when `m` is `undefined`. -/
def newError (numToString : JSNum → String) (m : JSVal) : JSVal :=
  match m with
  | .undefined => .obj []
  | m => errorWithMessage (toStringJS numToString m)

/-- Strict comparison `v === s` against a string literal. -/
def strictEqStr (v : JSVal) (s : String) : Bool :=
  match v with
  | .str t => decide (t = s)
  | _ => false

/-! ## The transport -/

/-- The configuration handed to `axios.create`. -/
structure AxiosConfig where
  baseURL : JSVal
  timeout : JSVal
  headers : JSVal

/-- One call on the axios instance: `post(url, data)` or `get(url, config)`. -/
structure Request where
  method : String
  url : String
  data : Option JSVal
  config : Option JSVal

/-- What the runtime supplies: the engine's number formatting, and axios without the
interceptors installed by the SDK, which resolves with a response object or rejects with
an error value. -/
structure Env where
  numToString : JSNum → String
  transport : AxiosConfig → Request → Except JSVal JSVal

/-- What the network did with one request. -/
inductive Outcome where
  | answered (status : ℤ) (body : JSVal)
  | unanswered
  | unsent (error : JSVal)

/-- The response object axios builds from an answer. -/
def axiosResponse (status : ℤ) (body : JSVal) : JSVal :=
  .obj [("data", body), ("status", .num (.fin status))]

/-- The handle axios attaches as `error.request` once a request has been sent. -/
def requestHandle (req : Request) : JSVal :=
  .obj [("method", .str req.method), ("path", .str req.url)]

/-- How axios settles a call, as its documentation describes it (default
`validateStatus`: a status from 200 to 299 resolves, any other status rejects with an
error carrying `response` and `request`; a request that got no answer rejects with an
error carrying `request` only; a failure while setting the request up rejects with that
error). -/
def axiosSettle (req : Request) : Outcome → Except JSVal JSVal
  | .answered status body =>
    if 200 ≤ status ∧ status < 300 then
      .ok (axiosResponse status body)
    else
      .error (.obj [("name", .str "AxiosError"),
        ("response", axiosResponse status body), ("request", requestHandle req)])
  | .unanswered =>
    .error (.obj [("name", .str "AxiosError"), ("request", requestHandle req)])
  | .unsent error => .error error

/-- The runtime in which the network behaves as `network` says. -/
def Env.ofNetwork (numToString : JSNum → String) (network : AxiosConfig → Request → Outcome) :
    Env :=
  { numToString := numToString
    transport := fun cfg req => axiosSettle req (network cfg req) }

/-- The outcome of one call: the value returned or thrown, and the requests handed to the
transport, oldest first. -/
structure Call where
  result : Except JSVal JSVal
  sent : List Request

/-! ## The client (`src/index.js`) -/

/-- The fields of a `BetabotzPaygate` instance. -/
structure Client where
  apiKey : JSVal
  baseURL : JSVal
  timeout : JSVal
  client : AxiosConfig

/-- The constructor (`index.js` lines 15-53); the interceptors it installs are
`responseFulfilled` and `responseRejected`. -/
def construct (config : JSVal) : Except JSVal Client := do
  if !truthy config then
    throw (errorWithMessage "API Key is required")
  let apiKey ← getProp config "apiKey"
  if !truthy apiKey then
    throw (errorWithMessage "API Key is required")
  let baseURL := jsOr (← getProp config "baseURL") (.str "https://web.btzpay.my.id")
  let timeout := jsOr (← getProp config "timeout") (.num (.fin 30000))
  pure
    { apiKey := apiKey
      baseURL := baseURL
      timeout := timeout
      client :=
        { baseURL := baseURL
          timeout := timeout
          headers := .obj [("Content-Type", .str "application/json")] } }

/-- The success interceptor `(response) => response`. -/
def responseFulfilled (response : JSVal) : Except JSVal JSVal :=
  pure response

/-- The error interceptor (`index.js` lines 36-51); every path throws. -/
def responseRejected (numToString : JSNum → String) (error : JSVal) : Except JSVal JSVal := do
  let response ← getProp error "response"
  if truthy response then
    let errorData ← getProp response "data"
    let message ← getProp errorData "message"
    let err := newError numToString (jsOr message (.str "API request failed"))
    let status ← getProp response "status"
    let err := setProp err "status" status
    let err := setProp err "data" errorData
    throw err
  else
    let request ← getProp error "request"
    if truthy request then
      throw (errorWithMessage "No response from server")
    else
      throw error

/-- A request on the instance `this.client`: the transport, then the interceptors. -/
def axiosRequest (env : Env) (self : Client) (req : Request) : Except JSVal JSVal :=
  match env.transport self.client req with
  | .ok response => responseFulfilled response
  | .error error => responseRejected env.numToString error

/-- A call that throws during validation, before anything is sent. -/
def rejectEarly (error : JSVal) : Call :=
  { result := .error error, sent := [] }

/-- The tail shared by the four operations: `const response = await this.client...;
return response.data`. -/
def issue (env : Env) (self : Client) (req : Request) : Call :=
  { result := (axiosRequest env self req).bind (fun response => getProp response "data")
    sent := [req] }

/-- The payload literal of `createTransaction`: `apikey`, then `amount`, then the spread of
`params`. -/
def createPayload (self : Client) (amount params : JSVal) : JSVal :=
  .obj (spreadInto (setField "amount" amount (setField "apikey" self.apiKey [])) params)

/-- The method `createTransaction(params)` (`index.js` lines 82-95). -/
def createTransaction (env : Env) (self : Client) (params : JSVal) : Call :=
  match getProp params "amount" with
  | .error e => rejectEarly e
  | .ok amount =>
    if !truthy amount then
      rejectEarly (errorWithMessage "Amount is required")
    else
      issue env self
        { method := "POST", url := "/api/qris/create"
          data := some (createPayload self amount params), config := none }

/-- The method `getTransaction(transactionId, accessKey)` (`index.js` lines 103-115). -/
def getTransaction (env : Env) (self : Client) (transactionId accessKey : JSVal) : Call :=
  if !truthy transactionId || !truthy accessKey then
    rejectEarly (errorWithMessage "Transaction ID and access key are required")
  else
    issue env self
      { method := "GET"
        url := "/api/qris/transaction/" ++ toStringJS env.numToString transactionId
        data := none
        config := some (.obj [("params", .obj [("key", accessKey)])]) }

/-- The method `cancelTransaction(transactionId, reason = 'cancelled_by_user')`
(`index.js` lines 123-136); an omitted argument is `undefined`, and the default applies
when `reason` is `undefined`. -/
def cancelTransaction (env : Env) (self : Client) (transactionId reason : JSVal) : Call :=
  let reason :=
    match reason with
    | .undefined => JSVal.str "cancelled_by_user"
    | r => r
  if !truthy transactionId then
    rejectEarly (errorWithMessage "Transaction ID is required")
  else
    issue env self
      { method := "POST"
        url := "/api/qris/cancel/" ++ toStringJS env.numToString transactionId
        data := some (.obj [("apikey", self.apiKey), ("reason", reason)])
        config := none }

/-- The payload literal of `sendCallback`: the spread of `params`, then `apikey`. -/
def callbackPayload (self : Client) (params : JSVal) : JSVal :=
  .obj (setField "apikey" self.apiKey (spreadInto [] params))

/-- The method `sendCallback(params)` (`index.js` lines 148-163). -/
def sendCallback (env : Env) (self : Client) (params : JSVal) : Call :=
  match getProp params "action" with
  | .error e => rejectEarly e
  | .ok action =>
    if !truthy action || !strictEqStr action "update" then
      rejectEarly (errorWithMessage "Action must be \"update\"")
    else
      match getProp params "app" with
      | .error e => rejectEarly e
      | .ok app =>
        match getProp params "notification" with
        | .error e => rejectEarly e
        | .ok notification =>
          if !truthy app || !truthy notification then
            rejectEarly (errorWithMessage "App and notification are required")
          else
            issue env self
              { method := "POST", url := "/api/qris/callback"
                data := some (callbackPayload self params), config := none }

/-- The method `getPaymentUrl(transactionId, accessKey)` (`index.js` lines 171-176): the
result is a template literal, so each of its three parts goes through ToString; the
method is synchronous and never touches `this.client`. -/
def getPaymentUrl (env : Env) (self : Client) (transactionId accessKey : JSVal) : Call :=
  if !truthy transactionId || !truthy accessKey then
    rejectEarly (errorWithMessage "Transaction ID and access key are required")
  else
    { result := .ok (.str (toStringJS env.numToString self.baseURL ++ "/transaction/" ++
        toStringJS env.numToString transactionId ++ "?key=" ++
        toStringJS env.numToString accessKey))
      sent := [] }

/-- The method `verifyCallback(callbackData, signature)` (`index.js` lines 184-189): a
placeholder that reads neither argument and returns `true` (the warning it writes to the
console is not part of the outcome). -/
def verifyCallback (_env : Env) (_self : Client) (_callbackData _signature : JSVal) : Call :=
  { result := .ok (.bool true), sent := [] }

/-- The value of the last entry with key `k` (used to reason about repeated
`setField`). -/
def lookupLast (k : String) : List (String × JSVal) → Option JSVal
  | [] => none
  | (k', v) :: rest => (lookupLast k rest).or (if k' = k then some v else none)

/-! ## Concrete values for the closed statements -/

/-- A number formatting for the examples: decimal digits for integers, as the engine
prints them below 10^21 (no example formats any other number). -/
def sampleNumToString : JSNum → String
  | .fin q => toString q
  | .nan => "NaN"
  | .inf negative => if negative then "-Infinity" else "Infinity"

/-- The client built from the config whose only field is `apiKey: "KEY-1"`. -/
def sampleClient : Client :=
  { apiKey := .str "KEY-1"
    baseURL := .str "https://web.btzpay.my.id"
    timeout := .num (.fin 30000)
    client :=
      { baseURL := .str "https://web.btzpay.my.id"
        timeout := .num (.fin 30000)
        headers := .obj [("Content-Type", .str "application/json")] } }

/-- The runtime in which every request meets the same outcome. -/
def sampleEnv (o : Outcome) : Env :=
  Env.ofNetwork sampleNumToString (fun _ _ => o)

/-- The transaction record of the end-to-end scenario. -/
def sampleRecord : JSVal :=
  .obj [("transactionId", .str "TRX1"), ("accessKey", .str "K1"),
    ("amount", .num (.fin 50000)), ("fee", .num (.fin 0)),
    ("totalAmount", .num (.fin 50000)), ("status", .str "pending")]

/-- The success envelope around a record: `success: true, data: record`. -/
def envelope (record : JSVal) : JSVal :=
  .obj [("success", .bool true), ("data", record)]

/-- The body of the HTTP 400 scenario. -/
def tooLowBody : JSVal :=
  .obj [("message", .str "Amount too low"),
    ("errors", .arr [.obj [("field", .str "amount"), ("message", .str "min 1")]])]

/-- An error raised while a request is set up: no `response`, no `request`. -/
def setupFailure : JSVal :=
  .obj [("name", .str "TypeError"), ("message", .str "Invalid URL")]

/-- The request of the detailed-transaction test, without its nested records. -/
def detailedParams : JSVal :=
  .obj [("amount", .num (.fin 100000)), ("fee", .num (.fin 50)),
    ("paymentMethod", .str "qrisgopay"), ("timeout", .num (.fin 900000)),
    ("notes", .str "Premium package order")]

/-- The fields of the Dana callback of the test suite. -/
def danaCallback : List (String × JSVal) :=
  [("action", .str "update"), ("app", .str "com.dana.id"),
    ("notification", .str "Kamu menerima Rp50.000 dari John Doe"),
    ("amount", .num (.fin 50000)), ("appVersionCode", .num (.fin 123))]

/-- The fields of a callback with a wrong action. -/
def invalidActionCallback : List (String × JSVal) :=
  [("action", .str "invalid_action"), ("app", .str "com.dana.id"),
    ("notification", .str "Test notification"), ("amount", .num (.fin 10000)),
    ("appVersionCode", .num (.fin 6))]

/-- The fields of a callback without `app` and `notification`. -/
def missingFieldsCallback : List (String × JSVal) :=
  [("action", .str "update"), ("amount", .num (.fin 10000))]

/-- The fields of a valid callback that carries an `apikey` of its own. -/
def ownKeyCallback : List (String × JSVal) :=
  [("action", .str "update"), ("app", .str "com.dana.id"),
    ("notification", .str "Test notification"), ("apikey", .str "OTHER-KEY")]

/-- A note of 2001 characters, one more than the documented maximum. -/
def longNotes : String :=
  String.mk (List.replicate 2001 'x')

/-! ## The six operations as steps on an instance -/

/-- A call of one of the six methods, with its arguments. -/
inductive Operation where
  | createTransaction (params : JSVal)
  | getTransaction (transactionId accessKey : JSVal)
  | cancelTransaction (transactionId reason : JSVal)
  | sendCallback (params : JSVal)
  | getPaymentUrl (transactionId accessKey : JSVal)
  | verifyCallback (callbackData signature : JSVal)

/-- The outcome of a method call together with the instance it was made on. -/
structure Step where
  call : Call
  self : Client

/-- One method call on the instance `self`, as the outcome of the call together with the
instance it was made on.  What a body does to the fields of `this` is not read off this
definition: it is settled on the bodies written as programs (`Operation.program`). -/
def Operation.run (env : Env) (self : Client) : Operation → Step
  | .createTransaction params =>
    { call := BetabotzPaygate.createTransaction env self params, self := self }
  | .getTransaction transactionId accessKey =>
    { call := BetabotzPaygate.getTransaction env self transactionId accessKey, self := self }
  | .cancelTransaction transactionId reason =>
    { call := BetabotzPaygate.cancelTransaction env self transactionId reason, self := self }
  | .sendCallback params =>
    { call := BetabotzPaygate.sendCallback env self params, self := self }
  | .getPaymentUrl transactionId accessKey =>
    { call := BetabotzPaygate.getPaymentUrl env self transactionId accessKey, self := self }
  | .verifyCallback callbackData signature =>
    { call := BetabotzPaygate.verifyCallback env self callbackData signature, self := self }

/-- Whether the validation at the head of a method lets the call through. -/
def Operation.valid : Operation → Bool
  | .createTransaction params =>
    match getProp params "amount" with
    | .ok amount => truthy amount
    | .error _ => false
  | .getTransaction transactionId accessKey => truthy transactionId && truthy accessKey
  | .cancelTransaction transactionId _ => truthy transactionId
  | .sendCallback params =>
    match getProp params "action", getProp params "app", getProp params "notification" with
    | .ok action, .ok app, .ok notification =>
      strictEqStr action "update" && truthy app && truthy notification
    | _, _, _ => false
  | .getPaymentUrl _ _ => false
  | .verifyCallback _ _ => false

/-- Whether a value is `null` or `undefined`. -/
def isNullish : JSVal → Bool
  | .undefined => true
  | .null => true
  | _ => false

/-! ## The polling and retry helpers (`examples/advanced.js`)

The examples call the SDK through a module-level instance `paygate`; here it is the
argument `self`.  Successive calls may meet different network behaviour, so the runtime is
indexed by the attempt number.  Waiting between attempts and console output are not
modelled. -/

/-- The outcome of a loop around an SDK method: what the helper returns or throws, how
many times it called the method, and the requests that reached the transport. -/
structure LoopRun where
  result : Except JSVal JSVal
  calls : ℕ
  sent : List Request

/-- Strict comparison `v === q` against a numeric literal. -/
def strictEqNum (v : JSVal) (q : ℚ) : Bool :=
  match v with
  | .num (.fin x) => decide (x = q)
  | _ => false

/-- The test `['sukses', 'gagal', 'expired', 'cancel'].includes(status)`. -/
def isTerminalStatus (status : JSVal) : Bool :=
  strictEqStr status "sukses" || strictEqStr status "gagal" ||
    strictEqStr status "expired" || strictEqStr status "cancel"

/-- The options of `pollTransactionStatus`; an absent field takes the default of the
destructuring (`maxAttempts = 30`, `intervalMs = 2000`, `onUpdate = null`).  The attempt
bound is a natural number. -/
structure PollOptions where
  maxAttempts : Option ℕ
  intervalMs : Option ℕ
  onUpdate : Option (JSVal → JSVal → Except JSVal Unit)

/-- How one pass through the loop body ends. -/
inductive Turn where
  | returned (value : JSVal)
  | next
  | escaped (error : JSVal)

/-- The `try` block of `pollTransactionStatus` (lines 103-123) after the call of
`getTransaction`: `some data` when it returns `details.data`, `none` when it falls through
to the next attempt. -/
def pollTry (call : Call) (onUpdate : Option (JSVal → JSVal → Except JSVal Unit)) :
    Except JSVal (Option JSVal) := do
  let details ← call.result
  let data ← getProp details "data"
  let status ← getProp data "status"
  match onUpdate with
  | some f => f status data
  | none => pure ()
  if isTerminalStatus status then
    pure (some data)
  else
    pure none

/-- One pass through the loop body: the `try` block, and the `catch` block, which reads
`error.message` for its log line and swallows the error. -/
def pollAttempt (call : Call) (onUpdate : Option (JSVal → JSVal → Except JSVal Unit)) : Turn :=
  match pollTry call onUpdate with
  | .ok (some data) => .returned data
  | .ok none => .next
  | .error error =>
    match getProp error "message" with
    | .ok _ => .next
    | .error e => .escaped e

/-- The `for` loop of `pollTransactionStatus` from `attempt` on, with `remaining` passes
left (`attempt <= maxAttempts` holds exactly when `remaining` is positive), followed by
the final `throw`. -/
def pollLoop (world : ℕ → Env) (self : Client) (transactionId accessKey : JSVal)
    (onUpdate : Option (JSVal → JSVal → Except JSVal Unit)) : ℕ → ℕ → LoopRun
  | _, 0 =>
    { result := .error (errorWithMessage "Transaction status polling timeout")
      calls := 0, sent := [] }
  | attempt, remaining + 1 =>
    let call := getTransaction (world attempt) self transactionId accessKey
    match pollAttempt call onUpdate with
    | .returned data => { result := .ok data, calls := 1, sent := call.sent }
    | .escaped e => { result := .error e, calls := 1, sent := call.sent }
    | .next =>
      let rest := pollLoop world self transactionId accessKey onUpdate (attempt + 1) remaining
      { result := rest.result, calls := rest.calls + 1, sent := call.sent ++ rest.sent }

/-- The function `pollTransactionStatus(transactionId, accessKey, options)`
(`advanced.js` lines 93-130). -/
def pollTransactionStatus (world : ℕ → Env) (self : Client) (transactionId accessKey : JSVal)
    (options : PollOptions) : LoopRun :=
  pollLoop world self transactionId accessKey options.onUpdate 1 (options.maxAttempts.getD 30)

/-- The `for` loop of `createTransactionWithRetry` from `attempt` on, with `remaining`
passes left, followed by the final `throw lastError`. -/
def retryLoop (world : ℕ → Env) (self : Client) (params : JSVal) : JSVal → ℕ → ℕ → LoopRun
  | lastError, _, 0 => { result := .error lastError, calls := 0, sent := [] }
  | _, attempt, remaining + 1 =>
    let call := createTransaction (world attempt) self params
    match call.result with
    | .ok transaction => { result := .ok transaction, calls := 1, sent := call.sent }
    | .error error =>
      match getProp error "message" with
      | .error e => { result := .error e, calls := 1, sent := call.sent }
      | .ok _ =>
        match getProp error "status" with
        | .error e => { result := .error e, calls := 1, sent := call.sent }
        | .ok status =>
          if strictEqNum status 400 then
            { result := .error error, calls := 1, sent := call.sent }
          else
            let rest := retryLoop world self params error (attempt + 1) remaining
            { result := rest.result, calls := rest.calls + 1, sent := call.sent ++ rest.sent }

/-- The function `createTransactionWithRetry(params, maxRetries = 3)` (`advanced.js`
lines 18-46); `lastError` starts out `undefined`. -/
def createTransactionWithRetry (world : ℕ → Env) (self : Client) (params : JSVal)
    (maxRetries : Option ℕ) : LoopRun :=
  retryLoop world self params .undefined 1 (maxRetries.getD 3)

/-- Whether a call failed with an error whose `status` is not the number 400 (the case
in which `createTransactionWithRetry` goes on to the next attempt). -/
def failsWithout400 (call : Call) : Bool :=
  match call.result with
  | .ok _ => false
  | .error e =>
    match getProp e "status" with
    | .ok status => !strictEqNum status 400
    | .error _ => false

/-- Whether a call failed with an error whose `status` is the number 400. -/
def failsWith400 (call : Call) : Bool :=
  match call.result with
  | .ok _ => false
  | .error e =>
    match getProp e "status" with
    | .ok status => strictEqNum status 400
    | .error _ => false

/-! ## The validating wrapper (`examples/advanced.js`, lines 227-256) -/

/-- What the engine supplies beyond `Env` for the wrapper: ToNumber on strings and the
URL parser behind `new URL(string)`. -/
structure Engine where
  stringToNumber : String → JSNum
  parsesAsUrl : String → Bool

/-- ToNumber: `undefined` is `NaN`, `null` is 0, booleans are 0 and 1, strings go through
the engine, arrays and objects through their string form. -/
def toNumberJS (engine : Engine) (numToString : JSNum → String) : JSVal → JSNum
  | .undefined => .nan
  | .null => .fin 0
  | .bool b => if b then .fin 1 else .fin 0
  | .num n => n
  | .str s => engine.stringToNumber s
  | v => engine.stringToNumber (toStringJS numToString v)

/-- The comparison `x < y` on numbers: false as soon as one side is `NaN`. -/
def numLt : JSNum → JSNum → Bool
  | .nan, _ => false
  | _, .nan => false
  | .fin a, .fin b => decide (a < b)
  | .fin _, .inf negative => !negative
  | .inf negative, .fin _ => negative
  | .inf n1, .inf n2 => n1 && !n2

/-- The comparison `x <= y` on numbers (and `y >= x`): false as soon as one side is
`NaN`, otherwise the negation of `y < x`. -/
def numLe : JSNum → JSNum → Bool
  | .nan, _ => false
  | _, .nan => false
  | x, y => !numLt y x

/-- The length of a string as JavaScript counts it, in UTF-16 code units. -/
def utf16Length (s : String) : ℕ :=
  (s.data.map (fun c => if c.val < 65536 then 1 else 2)).sum

/-- The property read `v.length` on a value that is not `null` or `undefined`. -/
def getLength : JSVal → JSVal
  | .str s => .num (.fin (utf16Length s))
  | .arr items => .num (.fin items.length)
  | .obj fields => (lookupField "length" fields).getD .undefined
  | _ => .undefined

/-- The comparison `v < q` against a numeric literal, as the guards write it. -/
def lessThan (engine : Engine) (numToString : JSNum → String) (v : JSVal) (q : ℚ) : Bool :=
  numLt (toNumberJS engine numToString v) (.fin q)

/-- The comparison `v > q` against a numeric literal. -/
def greaterThan (engine : Engine) (numToString : JSNum → String) (v : JSVal) (q : ℚ) : Bool :=
  numLt (.fin q) (toNumberJS engine numToString v)

/-- The comparison `v >= q` against a numeric literal. -/
def atLeast (engine : Engine) (numToString : JSNum → String) (v : JSVal) (q : ℚ) : Bool :=
  numLe (.fin q) (toNumberJS engine numToString v)

/-- The comparison `v <= q` against a numeric literal. -/
def atMost (engine : Engine) (numToString : JSNum → String) (v : JSVal) (q : ℚ) : Bool :=
  numLe (toNumberJS engine numToString v) (.fin q)

/-- The helper `isValidUrl(string)`: whether `new URL(string)` succeeds. -/
def isValidUrl (engine : Engine) (numToString : JSNum → String) (v : JSVal) : Bool :=
  engine.parsesAsUrl (toStringJS numToString v)

/-- The five guards of `createValidatedTransaction` (lines 228-251), in order. -/
def validateParams (engine : Engine) (numToString : JSNum → String) (params : JSVal) :
    Except JSVal Unit := do
  let amount ← getProp params "amount"
  if !truthy amount || numLt (toNumberJS engine numToString amount) (.fin 1) then
    throw (errorWithMessage "Amount must be at least Rp 1")
  let timeout ← getProp params "timeout"
  if truthy timeout &&
      (numLt (toNumberJS engine numToString timeout) (.fin 60000) ||
        numLt (.fin 3600000) (toNumberJS engine numToString timeout)) then
    throw (errorWithMessage "Timeout must be between 60000ms (1 min) and 3600000ms (1 hour)")
  let notes ← getProp params "notes"
  if truthy notes && numLt (.fin 2000) (toNumberJS engine numToString (getLength notes)) then
    throw (errorWithMessage "Notes must not exceed 2000 characters")
  let callbackUrl ← getProp params "callback_url"
  if truthy callbackUrl && !isValidUrl engine numToString callbackUrl then
    throw (errorWithMessage "Invalid callback URL format")
  let returnUrl ← getProp params "return_url"
  if truthy returnUrl && !isValidUrl engine numToString returnUrl then
    throw (errorWithMessage "Invalid return URL format")

/-- The function `createValidatedTransaction(params)`: the guards, then
`return await paygate.createTransaction(params)` with the same `params`. -/
def createValidatedTransaction (engine : Engine) (env : Env) (self : Client) (params : JSVal) :
    Call :=
  match validateParams engine env.numToString params with
  | .error e => rejectEarly e
  | .ok _ => createTransaction env self params

/-- An engine for the examples: of the strings it reads the empty one as 0 and `0.5` as
one half, as ToNumber does, and no other as a number; it accepts the URLs that start with
`https://`. -/
def sampleEngine : Engine :=
  { stringToNumber := fun s =>
      if s = "" then .fin 0 else if s = "0.5" then .fin (1 / 2) else .nan
    parsesAsUrl := fun s => "https://".data.isPrefixOf s.data }

/-! ## The webhook handler (`examples/webhook-server.js`, lines 198-253) -/

/-- The comparison `Map` uses for keys (SameValueZero), for a key read from a parsed
request body: primitives compare by value and `NaN` equals itself; objects and arrays
compare by identity, and a freshly parsed one is identical to no stored key. -/
def sameValueZero : JSVal → JSVal → Bool
  | .undefined, .undefined => true
  | .null, .null => true
  | .bool a, .bool b => decide (a = b)
  | .num a, .num b => decide (a = b)
  | .str a, .str b => decide (a = b)
  | _, _ => false

/-- The module-level `transactions` map: each key with the record stored under it (the
server only ever stores object literals, kept here as property lists). -/
abbrev Store := List (JSVal × List (String × JSVal))

/-- The lookup `transactions.get(key)`. -/
def storeGet (key : JSVal) : Store → Option (List (String × JSVal))
  | [] => none
  | (k, v) :: rest => if sameValueZero k key then some v else storeGet key rest

/-- The update `transactions.set(key, value)`. -/
def storeSet (key : JSVal) (value : List (String × JSVal)) : Store → Store
  | [] => [(key, value)]
  | (k, v) :: rest =>
    if sameValueZero k key then (k, value) :: rest else (k, v) :: storeSet key value rest

/-- Optional chaining `v?.k`: `undefined` when `v` is `null` or `undefined`. -/
def getPropOpt (v : JSVal) (k : String) : JSVal :=
  match getProp v k with
  | .ok w => w
  | .error _ => .undefined

/-- What the handler writes with `res.json(...)`: the HTTP status (200 unless set) and the
JSON body. -/
structure Reply where
  status : ℤ
  body : JSVal

/-- The four processing hooks called from the `switch`, each given `pay_id` and `raw`. -/
structure Handlers where
  successful : JSVal → JSVal → Except JSVal Unit
  expired : JSVal → JSVal → Except JSVal Unit
  cancelled : JSVal → JSVal → Except JSVal Unit
  failed : JSVal → JSVal → Except JSVal Unit

/-- The hooks as the demo server defines them (lines 294-337): they write log lines, read
`rawData?.data` and `orderInfo?.orderId` through optional chaining, and throw nothing. -/
def demoHandlers : Handlers :=
  { successful := fun _ _ => .ok ()
    expired := fun _ _ => .ok ()
    cancelled := fun _ _ => .ok ()
    failed := fun _ _ => .ok () }

/-- The `switch (status)` of the handler: strict comparison against the four literals,
nothing but a log line in the default case. -/
def processStatus (handlers : Handlers) (status payId raw : JSVal) : Except JSVal Unit :=
  if strictEqStr status "sukses" then handlers.successful payId raw
  else if strictEqStr status "expired" then handlers.expired payId raw
  else if strictEqStr status "cancel" then handlers.cancelled payId raw
  else if strictEqStr status "gagal" then handlers.failed payId raw
  else .ok ()

/-- The acknowledgement written by `res.json` with the body `success: true`. -/
def acknowledgement : Reply :=
  { status := 200, body := .obj [("success", .bool true)] }

/-- The `try` block of the handler on the request body: the destructuring of `req.body`
(which throws on `null` and `undefined`), the update of the stored record, the `switch`,
and the acknowledgement; with the store as the block leaves it. -/
def webhookTry (handlers : Handlers) (store : Store) (body : JSVal) :
    Except JSVal Reply × Store :=
  match getProp body "pay_id" with
  | .error e => (.error e, store)
  | .ok payId =>
    let status := getPropOpt body "status"
    let raw := getPropOpt body "raw"
    let store' :=
      match storeGet payId store with
      | some stored =>
        storeSet payId
          (setField "paidAt" (getPropOpt (getPropOpt raw "data") "paidAt")
            (setField "status" status stored)) store
      | none => store
    match processStatus handlers status payId raw with
    | .error e => (.error e, store')
    | .ok _ => (.ok acknowledgement, store')

/-- The handler of `POST /webhook`: the `try` block, and the `catch` block, which reads
`error.message` for its log line and then acknowledges as well.  `none` stands for a
handler that ended without writing a response. -/
def webhookHandler (handlers : Handlers) (store : Store) (body : JSVal) :
    Option Reply × Store :=
  match webhookTry handlers store body with
  | (.ok reply, store') => (some reply, store')
  | (.error error, store') =>
    match getProp error "message" with
    | .ok _ => (some acknowledgement, store')
    | .error _ => (none, store')

/-- The sample record once it is paid. -/
def paidRecord : JSVal :=
  .obj [("transactionId", .str "TRX1"), ("accessKey", .str "K1"),
    ("amount", .num (.fin 50000)), ("fee", .num (.fin 0)),
    ("totalAmount", .num (.fin 50000)), ("status", .str "sukses")]

/-- A network that leaves the first call unanswered and answers every later one with the
sample envelope. -/
def flakyWorld (attempt : ℕ) : Env :=
  if attempt = 1 then sampleEnv .unanswered
  else sampleEnv (.answered 200 (envelope sampleRecord))

/-- The request of the validation example of `advanced.js`. -/
def validatedParams : List (String × JSVal) :=
  [("amount", .num (.fin 25000)), ("notes", .str "Validated transaction"),
    ("callback_url", .str "https://example.com/webhook")]

/-! ## The constructor and the methods as programs on the instance

The definitions above pass the instance in as a value.  Here each body of `index.js` is
written once more as a program that runs on a mutable instance: it may read the fields of
`this`, assign them, hand a request to `this.client`, and it ends by returning or
throwing.  The constructor is written the same way, so that assignment is a step these
programs really have. -/

/-- The state a body runs on: the fields of `this`, and the requests handed to the
transport so far. -/
structure InstanceState where
  self : Client
  sent : List Request

/-- A body of `index.js`: from the state before, the value returned or thrown and the
state after. -/
abbrev Method (α : Type) : Type :=
  InstanceState → Except JSVal α × InstanceState

/-- Sequencing of statements: a thrown value ends the body, with the state reached. -/
instance Method.instMonad : Monad Method where
  pure a := fun s => (.ok a, s)
  bind m f := fun s =>
    match m s with
    | (.ok a, s') => f a s'
    | (.error e, s') => (.error e, s')

/-- The statement `throw e`. -/
def Method.throwValue {α : Type} (e : JSVal) : Method α :=
  fun s => (.error e, s)

/-- An expression that may throw but touches neither `this` nor the transport. -/
def Method.eval {α : Type} (x : Except JSVal α) : Method α :=
  fun s => (x, s)

/-- A read of the fields of `this`. -/
def Method.readThis : Method Client :=
  fun s => (.ok s.self, s)

/-- An assignment to a field of `this`. -/
def Method.assign (update : Client → Client) : Method Unit :=
  fun s => (.ok (), { s with self := update s.self })

/-- A call `await this.client.post(...)` or `await this.client.get(...)`: the request is
logged and the instance's axios answers through the interceptors. -/
def Method.request (env : Env) (req : Request) : Method JSVal :=
  fun s => (axiosRequest env s.self req, { s with sent := s.sent ++ [req] })

/-- The constructor body (`index.js` lines 15-53) on a fresh instance. -/
def constructorM (config : JSVal) : Method Unit := do
  if !truthy config then
    Method.throwValue (errorWithMessage "API Key is required")
  else
    let apiKey ← Method.eval (getProp config "apiKey")
    if !truthy apiKey then
      Method.throwValue (errorWithMessage "API Key is required")
    else
      Method.assign (fun c => { c with apiKey := apiKey })
      let baseURL ← Method.eval (getProp config "baseURL")
      Method.assign (fun c => { c with baseURL := jsOr baseURL (.str "https://web.btzpay.my.id") })
      let timeout ← Method.eval (getProp config "timeout")
      Method.assign (fun c => { c with timeout := jsOr timeout (.num (.fin 30000)) })
      let self ← Method.readThis
      Method.assign (fun c =>
        { c with
          client :=
            { baseURL := self.baseURL
              timeout := self.timeout
              headers := .obj [("Content-Type", .str "application/json")] } })

/-- The body of `createTransaction` (`index.js` lines 82-95). -/
def createTransactionM (env : Env) (params : JSVal) : Method JSVal := do
  let amount ← Method.eval (getProp params "amount")
  if !truthy amount then
    Method.throwValue (errorWithMessage "Amount is required")
  else
    let self ← Method.readThis
    let payload :=
      JSVal.obj (spreadInto (setField "amount" amount (setField "apikey" self.apiKey [])) params)
    let response ← Method.request env
      { method := "POST", url := "/api/qris/create", data := some payload, config := none }
    Method.eval (getProp response "data")

/-- The body of `getTransaction` (`index.js` lines 103-115). -/
def getTransactionM (env : Env) (transactionId accessKey : JSVal) : Method JSVal := do
  if !truthy transactionId || !truthy accessKey then
    Method.throwValue (errorWithMessage "Transaction ID and access key are required")
  else
    let response ← Method.request env
      { method := "GET"
        url := "/api/qris/transaction/" ++ toStringJS env.numToString transactionId
        data := none
        config := some (.obj [("params", .obj [("key", accessKey)])]) }
    Method.eval (getProp response "data")

/-- The body of `cancelTransaction` (`index.js` lines 123-136). -/
def cancelTransactionM (env : Env) (transactionId reason : JSVal) : Method JSVal := do
  let reason :=
    match reason with
    | .undefined => JSVal.str "cancelled_by_user"
    | r => r
  if !truthy transactionId then
    Method.throwValue (errorWithMessage "Transaction ID is required")
  else
    let self ← Method.readThis
    let response ← Method.request env
      { method := "POST"
        url := "/api/qris/cancel/" ++ toStringJS env.numToString transactionId
        data := some (.obj [("apikey", self.apiKey), ("reason", reason)])
        config := none }
    Method.eval (getProp response "data")

/-- The body of `sendCallback` (`index.js` lines 148-163). -/
def sendCallbackM (env : Env) (params : JSVal) : Method JSVal := do
  let action ← Method.eval (getProp params "action")
  if !truthy action || !strictEqStr action "update" then
    Method.throwValue (errorWithMessage "Action must be \"update\"")
  else
    let app ← Method.eval (getProp params "app")
    let notification ← Method.eval (getProp params "notification")
    if !truthy app || !truthy notification then
      Method.throwValue (errorWithMessage "App and notification are required")
    else
      let self ← Method.readThis
      let payload := JSVal.obj (setField "apikey" self.apiKey (spreadInto [] params))
      let response ← Method.request env
        { method := "POST", url := "/api/qris/callback", data := some payload, config := none }
      Method.eval (getProp response "data")

/-- The body of `getPaymentUrl` (`index.js` lines 171-176). -/
def getPaymentUrlM (env : Env) (transactionId accessKey : JSVal) : Method JSVal := do
  if !truthy transactionId || !truthy accessKey then
    Method.throwValue (errorWithMessage "Transaction ID and access key are required")
  else
    let self ← Method.readThis
    pure (.str (toStringJS env.numToString self.baseURL ++ "/transaction/" ++
      toStringJS env.numToString transactionId ++ "?key=" ++
      toStringJS env.numToString accessKey))

/-- The body of `verifyCallback` (`index.js` lines 184-189). -/
def verifyCallbackM (_callbackData _signature : JSVal) : Method JSVal :=
  pure (.bool true)

/-- The body of the method an operation calls. -/
def Operation.program (env : Env) : Operation → Method JSVal
  | .createTransaction params => createTransactionM env params
  | .getTransaction transactionId accessKey => getTransactionM env transactionId accessKey
  | .cancelTransaction transactionId reason => cancelTransactionM env transactionId reason
  | .sendCallback params => sendCallbackM env params
  | .getPaymentUrl transactionId accessKey => getPaymentUrlM env transactionId accessKey
  | .verifyCallback callbackData signature => verifyCallbackM callbackData signature

/-- A sequence of method calls on one instance, one after the other, the `n`-th call
meeting the runtime `world n`; a call that throws does not stop the caller from making the
next one.  The results in order, and the state after the last call. -/
def runPrograms (world : ℕ → Env) :
    ℕ → List Operation → InstanceState → List (Except JSVal JSVal) × InstanceState
  | _, [], s => ([], s)
  | n, op :: ops, s =>
    let step := op.program (world n) s
    let rest := runPrograms world (n + 1) ops step.2
    (step.1 :: rest.1, rest.2)

/-- A fresh instance, before the constructor has assigned anything. -/
def freshInstance : InstanceState :=
  { self :=
      { apiKey := .undefined, baseURL := .undefined, timeout := .undefined
        client := { baseURL := .undefined, timeout := .undefined, headers := .undefined } }
    sent := [] }

/-! ## Lemmas -/

theorem lookupField_setField (k k' : String) (v : JSVal) (fs : List (String × JSVal)) :
    lookupField k (setField k' v fs) = if k' = k then some v else lookupField k fs := by
  induction fs with
  | nil => simp [setField, lookupField]
  | cons e rest ih =>
    obtain ⟨k1, v1⟩ := e
    by_cases h1 : k1 = k' <;> by_cases h2 : k' = k <;> by_cases h3 : k1 = k <;>
      simp_all [setField, lookupField]

theorem lookupField_foldl_setField (k : String) (es target : List (String × JSVal)) :
    lookupField k (es.foldl (fun acc e => setField e.1 e.2 acc) target) =
      (lookupLast k es).or (lookupField k target) := by
  induction es generalizing target with
  | nil => simp [lookupLast]
  | cons e rest ih =>
    obtain ⟨k1, v1⟩ := e
    simp only [List.foldl_cons, ih, lookupField_setField, lookupLast]
    cases lookupLast k rest <;> by_cases h : k1 = k <;> simp [h]

theorem lookupLast_filter_ne (k k1 : String) (es : List (String × JSVal)) :
    lookupLast k (es.filter (fun e => !decide (e.1 = k1))) =
      if k1 = k then none else lookupLast k es := by
  induction es with
  | nil => simp [lookupLast]
  | cons e rest ih =>
    obtain ⟨k2, v2⟩ := e
    by_cases h2 : k2 = k1
    · subst h2
      by_cases h : k2 = k
      · subst h
        simpa [lookupLast] using ih
      · simp [lookupLast, ih, h]
    · by_cases h : k1 = k
      · subst h
        simp [List.filter_cons, lookupLast, ih, h2]
      · simp [List.filter_cons, lookupLast, ih, h2, h]

theorem lookupLast_ownEntriesOf (k : String) (fs : List (String × JSVal)) :
    lookupLast k (ownEntriesOf fs) = lookupField k fs := by
  induction fs with
  | nil => rfl
  | cons e rest ih =>
    obtain ⟨k1, v1⟩ := e
    by_cases h : k1 = k <;> simp [ownEntriesOf, lookupLast, lookupField, lookupLast_filter_ne, h, ih]

theorem lookupField_spreadInto_obj (k : String) (target fs : List (String × JSVal)) :
    lookupField k (spreadInto target (.obj fs)) = (lookupField k fs).or (lookupField k target) := by
  simp [spreadInto, ownEntries, lookupField_foldl_setField, lookupLast_ownEntriesOf]

theorem params_obj_of_truthy_prop {params v : JSVal} {k : String}
    (h : getProp params k = .ok v) (hv : truthy v = true) :
    ∃ fields, params = .obj fields ∧ lookupField k fields = some v := by
  cases params with
  | obj fields =>
    refine ⟨fields, rfl, ?_⟩
    cases hl : lookupField k fields with
    | none =>
      simp [getProp, pure, Except.pure, hl] at h
      subst h
      simp [truthy] at hv
    | some w =>
      simp [getProp, pure, Except.pure, hl] at h
      subst h
      rfl
  | undefined => simp [getProp, throw, throwThe, MonadExceptOf.throw] at h
  | null => simp [getProp, throw, throwThe, MonadExceptOf.throw] at h
  | bool b => simp [getProp, pure, Except.pure] at h; subst h; simp [truthy] at hv
  | num n => simp [getProp, pure, Except.pure] at h; subst h; simp [truthy] at hv
  | str s => simp [getProp, pure, Except.pure] at h; subst h; simp [truthy] at hv
  | arr items => simp [getProp, pure, Except.pure] at h; subst h; simp [truthy] at hv

theorem getProp_obj (fields : List (String × JSVal)) (k : String) :
    getProp (.obj fields) k = .ok ((lookupField k fields).getD .undefined) := rfl

theorem newError_jsOr_fallback (ns : JSNum → String) (m : JSVal) :
    newError ns (jsOr m (.str "API request failed")) =
      errorWithMessage (toStringJS ns (jsOr m (.str "API request failed"))) := by
  cases m with
  | undefined => rfl
  | _ => simp only [jsOr]; split <;> simp [newError]

theorem responseRejected_of_body (ns : JSNum → String) (error response status : JSVal)
    (fields : List (String × JSVal))
    (hr : getProp error "response" = .ok response)
    (hs : getProp response "status" = .ok status)
    (hd : getProp response "data" = .ok (.obj fields)) :
    responseRejected ns error = .error (.obj
      [("message", .str (toStringJS ns
          (jsOr ((lookupField "message" fields).getD .undefined) (.str "API request failed")))),
       ("status", status), ("data", .obj fields)]) := by
  have hv : truthy response = true := by
    cases response <;>
      simp_all [getProp, truthy, pure, Except.pure, throw, throwThe, MonadExceptOf.throw]
  simp only [responseRejected, hr, hv, hs, hd, bind, Except.bind, newError_jsOr_fallback,
    throw, throwThe, MonadExceptOf.throw, getProp_obj, if_true]
  rfl

theorem strictEqStr_eq_true {v : JSVal} {s : String} :
    strictEqStr v s = true ↔ v = .str s := by
  cases v <;> simp [strictEqStr]

theorem lookupField_callbackPayload (self : Client) (fields : List (String × JSVal))
    (k : String) :
    getProp (callbackPayload self (.obj fields)) k =
      if k = "apikey" then .ok self.apiKey else getProp (.obj fields) k := by
  simp only [callbackPayload, getProp_obj, lookupField_setField, lookupField_spreadInto_obj]
  by_cases h : k = "apikey"
  · subst h; simp
  · have h' : ¬ "apikey" = k := fun e => h e.symm
    simp [h, h', lookupField]

theorem construct_obj (fields : List (String × JSVal)) (s : String)
    (hk : lookupField "apiKey" fields = some (.str s)) (hs : s ≠ "") :
    construct (.obj fields) = .ok
      { apiKey := .str s
        baseURL := jsOr ((lookupField "baseURL" fields).getD .undefined)
          (.str "https://web.btzpay.my.id")
        timeout := jsOr ((lookupField "timeout" fields).getD .undefined) (.num (.fin 30000))
        client :=
          { baseURL := jsOr ((lookupField "baseURL" fields).getD .undefined)
              (.str "https://web.btzpay.my.id")
            timeout := jsOr ((lookupField "timeout" fields).getD .undefined)
              (.num (.fin 30000))
            headers := .obj [("Content-Type", .str "application/json")] } } := by
  have hts : truthy (.str s) = true := by simp [truthy, hs]
  have hobj : truthy (.obj fields) = true := rfl
  simp [construct, hobj, getProp_obj, hk, hts, bind, Except.bind, pure, Except.pure]

theorem getProp_ok_of_ok {v w : JSVal} {k : String} (h : getProp v k = .ok w) (k' : String) :
    ∃ w', getProp v k' = .ok w' := by
  cases v <;> simp_all [getProp, pure, Except.pure, throw, throwThe, MonadExceptOf.throw]

theorem getProp_error_all {v e : JSVal} {k : String} (h : getProp v k = .error e) (k' : String) :
    getProp v k' = .error e := by
  cases v <;> simp_all [getProp, pure, Except.pure, throw, throwThe, MonadExceptOf.throw]

theorem sendCallback_sent (env : Env) (self : Client) (params : JSVal) :
    (sendCallback env self params).sent =
      if (Operation.sendCallback params).valid = true then
        [{ method := "POST", url := "/api/qris/callback"
           data := some (callbackPayload self params), config := none }]
      else [] := by
  have hu : truthy (.str "update") = true := rfl
  have hs : strictEqStr (.str "update") "update" = true := rfl
  cases ha : getProp params "action" with
  | error e =>
    simp [sendCallback, Operation.valid, ha, rejectEarly]
  | ok action =>
    obtain ⟨app, hp⟩ := getProp_ok_of_ok ha "app"
    obtain ⟨notification, hn⟩ := getProp_ok_of_ok ha "notification"
    by_cases hact : action = .str "update"
    · subst hact
      cases hpt : truthy app <;> cases hnt : truthy notification <;>
        simp [sendCallback, Operation.valid, ha, hp, hn, hpt, hnt, hu, hs, rejectEarly, issue]
    · have hse : strictEqStr action "update" = false := by
        cases h : strictEqStr action "update"
        · rfl
        · exact absurd (strictEqStr_eq_true.mp h) hact
      simp [sendCallback, Operation.valid, ha, hp, hn, hse, rejectEarly]

theorem run_sent_length (env : Env) (self : Client) (op : Operation) :
    (op.run env self).call.sent.length = if op.valid = true then 1 else 0 := by
  cases op with
  | createTransaction params =>
    cases h : getProp params "amount" with
    | error e => simp [Operation.run, Operation.valid, createTransaction, h, rejectEarly]
    | ok amount =>
      cases hv : truthy amount <;>
        simp [Operation.run, Operation.valid, createTransaction, h, hv, rejectEarly, issue]
  | getTransaction transactionId accessKey =>
    cases h1 : truthy transactionId <;> cases h2 : truthy accessKey <;>
      simp [Operation.run, Operation.valid, getTransaction, h1, h2, rejectEarly, issue]
  | cancelTransaction transactionId reason =>
    cases h1 : truthy transactionId <;>
      simp [Operation.run, Operation.valid, cancelTransaction, h1, rejectEarly, issue]
  | sendCallback params =>
    simp only [Operation.run, sendCallback_sent]
    split <;> simp
  | getPaymentUrl transactionId accessKey =>
    cases h1 : truthy transactionId <;> cases h2 : truthy accessKey <;>
      simp [Operation.run, Operation.valid, getPaymentUrl, h1, h2, rejectEarly]
  | verifyCallback callbackData signature =>
    simp [Operation.run, Operation.valid, verifyCallback]

theorem getProp_ok_iff_not_nullish (v : JSVal) (k : String) :
    (∃ w, getProp v k = .ok w) ↔ isNullish v = false := by
  cases v <;> simp [getProp, isNullish, pure, Except.pure, throw, throwThe, MonadExceptOf.throw]

theorem getProp_error_eq {v e : JSVal} {k : String} (h : getProp v k = .error e) :
    e = typeError := by
  cases v <;> simp_all [getProp, pure, Except.pure, throw, throwThe, MonadExceptOf.throw]

theorem setProp_not_nullish (v : JSVal) (k : String) (w : JSVal) (h : isNullish v = false) :
    isNullish (setProp v k w) = false := by
  cases v <;> simp_all [setProp, isNullish]

theorem newError_not_nullish (ns : JSNum → String) (m : JSVal) :
    isNullish (newError ns m) = false := by
  cases m <;> rfl

/-- The error interceptor always throws, and what it throws is never `null` or
`undefined`. -/
theorem responseRejected_throws (ns : JSNum → String) (error : JSVal) :
    ∃ err, responseRejected ns error = .error err ∧ isNullish err = false := by
  cases hr : getProp error "response" with
  | error e =>
    refine ⟨e, ?_, ?_⟩
    · simp [responseRejected, hr, bind, Except.bind]
    · rw [getProp_error_eq hr]; rfl
  | ok response =>
    have herr : isNullish error = false := (getProp_ok_iff_not_nullish error "response").mp ⟨_, hr⟩
    cases hv : truthy response with
    | true =>
      cases hd : getProp response "data" with
      | error e =>
        refine ⟨e, ?_, ?_⟩
        · simp [responseRejected, hr, hv, hd, bind, Except.bind]
        · rw [getProp_error_eq hd]; rfl
      | ok errorData =>
        obtain ⟨status, hs⟩ := getProp_ok_of_ok hd "status"
        cases hm : getProp errorData "message" with
        | error e =>
          refine ⟨e, ?_, ?_⟩
          · simp [responseRejected, hr, hv, hd, hm, bind, Except.bind]
          · rw [getProp_error_eq hm]; rfl
        | ok message =>
          refine ⟨setProp (setProp (newError ns (jsOr message (.str "API request failed")))
            "status" status) "data" errorData, ?_, ?_⟩
          · simp only [responseRejected, hr, hv, hd, hm, hs, bind, Except.bind, if_true, throw,
              throwThe, MonadExceptOf.throw]
          · exact setProp_not_nullish _ _ _ (setProp_not_nullish _ _ _ (newError_not_nullish _ _))
    | false =>
      obtain ⟨request, hq⟩ := getProp_ok_of_ok hr "request"
      cases hqt : truthy request with
      | true =>
        refine ⟨errorWithMessage "No response from server", ?_, rfl⟩
        simp [responseRejected, hr, hv, hq, hqt, bind, Except.bind, throw, throwThe,
          MonadExceptOf.throw]
      | false =>
        refine ⟨error, ?_, herr⟩
        simp [responseRejected, hr, hv, hq, hqt, bind, Except.bind, throw, throwThe,
          MonadExceptOf.throw]

theorem issue_of_rejection (env : Env) (self : Client) (req : Request) (error : JSVal)
    (ht : env.transport self.client req = .error error) :
    (issue env self req).result = responseRejected env.numToString error ∧
      (issue env self req).sent = [req] := by
  obtain ⟨err, he, _⟩ := responseRejected_throws env.numToString error
  simp [issue, axiosRequest, ht, he, Except.bind]

theorem list_split_at_first {α : Type} (c : α) :
    ∀ (l1 l2 r1 r2 : List α), c ∉ l1 → c ∉ l2 → l1 ++ c :: r1 = l2 ++ c :: r2 →
      l1 = l2 ∧ r1 = r2 := by
  intro l1
  induction l1 with
  | nil =>
    intro l2 r1 r2 _ h2 h
    cases l2 with
    | nil => simpa using h
    | cons b l2 =>
      simp only [List.nil_append, List.cons_append, List.cons.injEq] at h
      exact absurd (h.1 ▸ List.mem_cons_self _ _) h2
  | cons a l1 ih =>
    intro l2 r1 r2 h1 h2 h
    cases l2 with
    | nil =>
      simp only [List.nil_append, List.cons_append, List.cons.injEq] at h
      exact absurd (h.1 ▸ List.mem_cons_self _ _) h1
    | cons b l2 =>
      simp only [List.cons_append, List.cons.injEq] at h
      obtain ⟨hab, ht⟩ := h
      obtain ⟨e1, e2⟩ := ih l2 r1 r2 (fun m => h1 (List.mem_cons_of_mem _ m))
        (fun m => h2 (List.mem_cons_of_mem _ m)) ht
      exact ⟨by rw [hab, e1], e2⟩

theorem url_parts_injective (b t1 k1 t2 k2 : String)
    (h1 : '?' ∉ t1.data) (h2 : '?' ∉ t2.data)
    (h : b ++ "/transaction/" ++ t1 ++ "?key=" ++ k1 = b ++ "/transaction/" ++ t2 ++ "?key=" ++ k2) :
    t1 = t2 ∧ k1 = k2 := by
  have hd := congrArg String.data h
  simp only [String.data_append, List.append_assoc] at hd
  have hd' := List.append_cancel_left (List.append_cancel_left hd)
  simp only [List.cons_append, List.nil_append] at hd'
  obtain ⟨e1, e2⟩ := list_split_at_first '?' _ _ _ _ h1 h2 hd'
  simp only [List.cons.injEq, true_and] at e2
  exact ⟨String.ext e1, String.ext e2⟩

theorem issue_error_not_nullish (env : Env) (self : Client) (req : Request) (e : JSVal)
    (h : (issue env self req).result = .error e) : isNullish e = false := by
  simp only [issue, axiosRequest] at h
  cases ht : env.transport self.client req with
  | ok response =>
    rw [ht] at h
    simp only [responseFulfilled, pure, Except.pure, Except.bind] at h
    rw [getProp_error_eq h]; rfl
  | error error =>
    rw [ht] at h
    obtain ⟨err, he, hn⟩ := responseRejected_throws env.numToString error
    simp [he, Except.bind] at h
    rw [← h]; exact hn

theorem getTransaction_error_not_nullish (env : Env) (self : Client)
    (transactionId accessKey e : JSVal)
    (h : (getTransaction env self transactionId accessKey).result = .error e) :
    isNullish e = false := by
  unfold getTransaction at h
  split at h
  · simp only [rejectEarly, Except.error.injEq] at h
    rw [← h]; rfl
  · exact issue_error_not_nullish _ _ _ _ h

theorem createTransaction_error_not_nullish (env : Env) (self : Client) (params e : JSVal)
    (h : (createTransaction env self params).result = .error e) : isNullish e = false := by
  unfold createTransaction at h
  split at h
  · rename_i e' he'
    simp only [rejectEarly, Except.error.injEq] at h
    rw [← h, getProp_error_eq he']; rfl
  · split at h
    · simp only [rejectEarly, Except.error.injEq] at h
      rw [← h]; rfl
    · exact issue_error_not_nullish _ _ _ _ h

theorem getTransaction_sent_length (env : Env) (self : Client) (transactionId accessKey : JSVal) :
    (getTransaction env self transactionId accessKey).sent.length ≤ 1 := by
  unfold getTransaction
  split <;> simp [rejectEarly, issue]

theorem createTransaction_sent_length (env : Env) (self : Client) (params : JSVal) :
    (createTransaction env self params).sent.length ≤ 1 := by
  unfold createTransaction
  split
  · simp [rejectEarly]
  · split <;> simp [rejectEarly, issue]

theorem pollLoop_bounded (world : ℕ → Env) (self : Client) (transactionId accessKey : JSVal)
    (onUpdate : Option (JSVal → JSVal → Except JSVal Unit)) (remaining : ℕ) :
    ∀ attempt,
      (pollLoop world self transactionId accessKey onUpdate attempt remaining).calls ≤
          remaining ∧
        (pollLoop world self transactionId accessKey onUpdate attempt remaining).sent.length ≤
          remaining := by
  induction remaining with
  | zero => intro attempt; simp [pollLoop]
  | succ n ih =>
    intro attempt
    have hs := getTransaction_sent_length (world attempt) self transactionId accessKey
    have := ih (attempt + 1)
    simp only [pollLoop]
    split
    · simp; omega
    · simp; omega
    · simp only [List.length_append]; omega

theorem pollLoop_all_next (world : ℕ → Env) (self : Client) (transactionId accessKey : JSVal)
    (onUpdate : Option (JSVal → JSVal → Except JSVal Unit)) (remaining : ℕ) :
    ∀ attempt,
      (∀ i, attempt ≤ i → i < attempt + remaining →
        pollAttempt (getTransaction (world i) self transactionId accessKey) onUpdate = .next) →
      (pollLoop world self transactionId accessKey onUpdate attempt remaining).result =
          .error (errorWithMessage "Transaction status polling timeout") ∧
        (pollLoop world self transactionId accessKey onUpdate attempt remaining).calls =
          remaining := by
  induction remaining with
  | zero => intro attempt _; simp [pollLoop]
  | succ n ih =>
    intro attempt h
    have h0 := h attempt (Nat.le_refl _) (by omega)
    have hrest := ih (attempt + 1) (fun i h1 h2 => h i (by omega) (by omega))
    simp only [pollLoop, h0]
    exact ⟨hrest.1, by rw [hrest.2]⟩

theorem pollAttempt_next (call : Call) (onUpdate : Option (JSVal → JSVal → Except JSVal Unit))
    (hcall : ∀ e, call.result = .error e → isNullish e = false)
    (hup : ∀ f, onUpdate = some f → ∀ s d e, f s d = .error e → isNullish e = false)
    (hterm : ∀ details data status, call.result = .ok details →
      getProp details "data" = .ok data → getProp data "status" = .ok status →
      isTerminalStatus status = false) :
    pollAttempt call onUpdate = .next := by
  have hmsg : ∀ e, isNullish e = false → ∃ w, getProp e "message" = .ok w :=
    fun e he => (getProp_ok_iff_not_nullish e "message").mpr he
  have hte : ∃ w, getProp typeError "message" = .ok w := ⟨_, rfl⟩
  unfold pollAttempt pollTry
  cases hr : call.result with
  | error e =>
    obtain ⟨w, hw⟩ := hmsg e (hcall e hr)
    simp [bind, Except.bind, hw]
  | ok details =>
    cases hd : getProp details "data" with
    | error e =>
      have he := getProp_error_eq hd
      subst he
      have hm : getProp typeError "message" = .ok .undefined := rfl
      simp [bind, Except.bind, hd, hm]
    | ok data =>
      cases hs : getProp data "status" with
      | error e =>
        have he := getProp_error_eq hs
        subst he
        have hm : getProp typeError "message" = .ok .undefined := rfl
        simp [bind, Except.bind, hd, hs, hm]
      | ok status =>
        have ht := hterm details data status hr hd hs
        cases onUpdate with
        | none => simp [bind, Except.bind, hd, hs, ht, pure, Except.pure]
        | some f =>
          cases hf : f status data with
          | error e =>
            obtain ⟨w, hw⟩ := hmsg e (hup f rfl status data e hf)
            simp [bind, Except.bind, hd, hs, hf, hw]
          | ok u => simp [bind, Except.bind, hd, hs, hf, ht, pure, Except.pure]

theorem retryLoop_bounded (world : ℕ → Env) (self : Client) (params : JSVal) (remaining : ℕ) :
    ∀ lastError attempt,
      (retryLoop world self params lastError attempt remaining).calls ≤ remaining ∧
        (retryLoop world self params lastError attempt remaining).sent.length ≤ remaining := by
  induction remaining with
  | zero => intro lastError attempt; simp [retryLoop]
  | succ n ih =>
    intro lastError attempt
    have hs := createTransaction_sent_length (world attempt) self params
    cases hr : (createTransaction (world attempt) self params).result with
    | ok v => simp [retryLoop, hr]; omega
    | error e =>
      cases hm : getProp e "message" with
      | error x => simp [retryLoop, hr, hm]; omega
      | ok m =>
        cases hst : getProp e "status" with
        | error x => simp [retryLoop, hr, hm, hst]; omega
        | ok status =>
          have := ih e (attempt + 1)
          cases h4 : strictEqNum status 400
          · simp only [retryLoop, hr, hm, hst, h4, List.length_append]
            simp
            omega
          · simp [retryLoop, hr, hm, hst, h4]; omega

theorem retryLoop_of_ok (world : ℕ → Env) (self : Client) (params lastError v : JSVal)
    (attempt remaining : ℕ)
    (h : (createTransaction (world attempt) self params).result = .ok v) :
    (retryLoop world self params lastError attempt (remaining + 1)).result = .ok v ∧
      (retryLoop world self params lastError attempt (remaining + 1)).calls = 1 := by
  simp [retryLoop, h]

theorem retryLoop_of_400 (world : ℕ → Env) (self : Client) (params lastError e : JSVal)
    (attempt remaining : ℕ)
    (h : (createTransaction (world attempt) self params).result = .error e)
    (h4 : failsWith400 (createTransaction (world attempt) self params) = true) :
    (retryLoop world self params lastError attempt (remaining + 1)).result = .error e ∧
      (retryLoop world self params lastError attempt (remaining + 1)).calls = 1 := by
  simp only [failsWith400, h] at h4
  cases hs : getProp e "status" with
  | error x => simp [hs] at h4
  | ok status =>
    obtain ⟨m, hm⟩ := getProp_ok_of_ok hs "message"
    simp only [hs] at h4
    simp [retryLoop, h, hm, hs, h4]

theorem retryLoop_of_other (world : ℕ → Env) (self : Client) (params lastError : JSVal)
    (attempt remaining : ℕ)
    (h : failsWithout400 (createTransaction (world attempt) self params) = true) :
    ∃ e, (createTransaction (world attempt) self params).result = .error e ∧
      (retryLoop world self params lastError attempt (remaining + 1)).result =
        (retryLoop world self params e (attempt + 1) remaining).result ∧
      (retryLoop world self params lastError attempt (remaining + 1)).calls =
        (retryLoop world self params e (attempt + 1) remaining).calls + 1 := by
  cases hr : (createTransaction (world attempt) self params).result with
  | ok v => simp [failsWithout400, hr] at h
  | error e =>
    simp only [failsWithout400, hr] at h
    cases hs : getProp e "status" with
    | error x => simp [hs] at h
    | ok status =>
      obtain ⟨m, hm⟩ := getProp_ok_of_ok hs "message"
      simp only [hs, Bool.not_eq_true'] at h
      exact ⟨e, rfl, by simp [retryLoop, hr, hm, hs, h], by simp [retryLoop, hr, hm, hs, h]⟩

theorem retryLoop_decisive (world : ℕ → Env) (self : Client) (params : JSVal) (k : ℕ) :
    ∀ lastError attempt remaining, k < remaining →
      (∀ j, j < k →
        failsWithout400 (createTransaction (world (attempt + j)) self params) = true) →
      (∀ v, (createTransaction (world (attempt + k)) self params).result = .ok v →
        (retryLoop world self params lastError attempt remaining).result = .ok v ∧
          (retryLoop world self params lastError attempt remaining).calls = k + 1) ∧
      (∀ e, (createTransaction (world (attempt + k)) self params).result = .error e →
        failsWith400 (createTransaction (world (attempt + k)) self params) = true →
        (retryLoop world self params lastError attempt remaining).result = .error e ∧
          (retryLoop world self params lastError attempt remaining).calls = k + 1) := by
  induction k with
  | zero =>
    intro lastError attempt remaining hk _
    obtain ⟨r, rfl⟩ : ∃ r, remaining = r + 1 := ⟨remaining - 1, by omega⟩
    exact ⟨fun v hv => retryLoop_of_ok world self params lastError v attempt r hv,
      fun e he h4 => retryLoop_of_400 world self params lastError e attempt r he h4⟩
  | succ k ih =>
    intro lastError attempt remaining hk hfail
    obtain ⟨r, rfl⟩ : ∃ r, remaining = r + 1 := ⟨remaining - 1, by omega⟩
    obtain ⟨e0, _, hres, hcalls⟩ :=
      retryLoop_of_other world self params lastError attempt r (hfail 0 (by omega))
    have hshift : ∀ j, attempt + 1 + j = attempt + (j + 1) := fun j => by omega
    have ih' := ih e0 (attempt + 1) r (by omega)
      (fun j hj => by rw [hshift]; exact hfail (j + 1) (by omega))
    rw [hshift] at ih'
    refine ⟨fun v hv => ?_, fun e he h4 => ?_⟩
    · obtain ⟨h1, h2⟩ := ih'.1 v hv
      exact ⟨hres.trans h1, by rw [hcalls, h2]⟩
    · obtain ⟨h1, h2⟩ := ih'.2 e he h4
      exact ⟨hres.trans h1, by rw [hcalls, h2]⟩

theorem retryLoop_exhausted (world : ℕ → Env) (self : Client) (params : JSVal) (n : ℕ) :
    ∀ lastError attempt,
      (∀ j, j < n + 1 →
        failsWithout400 (createTransaction (world (attempt + j)) self params) = true) →
      ∃ e, (createTransaction (world (attempt + n)) self params).result = .error e ∧
        (retryLoop world self params lastError attempt (n + 1)).result = .error e ∧
        (retryLoop world self params lastError attempt (n + 1)).calls = n + 1 := by
  induction n with
  | zero =>
    intro lastError attempt hfail
    obtain ⟨e, he, hres, hcalls⟩ :=
      retryLoop_of_other world self params lastError attempt 0 (hfail 0 (by omega))
    exact ⟨e, he, by rw [hres]; rfl, by rw [hcalls]; rfl⟩
  | succ n ih =>
    intro lastError attempt hfail
    obtain ⟨e0, _, hres, hcalls⟩ :=
      retryLoop_of_other world self params lastError attempt (n + 1) (hfail 0 (by omega))
    have hshift : ∀ j, attempt + 1 + j = attempt + (j + 1) := fun j => by omega
    obtain ⟨e, he, h1, h2⟩ := ih e0 (attempt + 1)
      (fun j hj => by rw [hshift]; exact hfail (j + 1) (by omega))
    rw [hshift] at he
    exact ⟨e, he, hres.trans h1, by rw [hcalls, h2]⟩

theorem validateParams_eq (engine : Engine) (ns : JSNum → String)
    (params amount timeout notes callbackUrl returnUrl : JSVal)
    (ha : getProp params "amount" = .ok amount) (ht : getProp params "timeout" = .ok timeout)
    (hn : getProp params "notes" = .ok notes)
    (hc : getProp params "callback_url" = .ok callbackUrl)
    (hr : getProp params "return_url" = .ok returnUrl) :
    validateParams engine ns params =
      if (!truthy amount || numLt (toNumberJS engine ns amount) (.fin 1)) = true then
        .error (errorWithMessage "Amount must be at least Rp 1")
      else if (truthy timeout && (numLt (toNumberJS engine ns timeout) (.fin 60000) ||
          numLt (.fin 3600000) (toNumberJS engine ns timeout))) = true then
        .error (errorWithMessage
          "Timeout must be between 60000ms (1 min) and 3600000ms (1 hour)")
      else if (truthy notes &&
          numLt (.fin 2000) (toNumberJS engine ns (getLength notes))) = true then
        .error (errorWithMessage "Notes must not exceed 2000 characters")
      else if (truthy callbackUrl && !isValidUrl engine ns callbackUrl) = true then
        .error (errorWithMessage "Invalid callback URL format")
      else if (truthy returnUrl && !isValidUrl engine ns returnUrl) = true then
        .error (errorWithMessage "Invalid return URL format")
      else .ok () := by
  simp only [validateParams, ha, ht, hn, hc, hr, bind, Except.bind, throw, throwThe,
    MonadExceptOf.throw, pure, Except.pure]

theorem validateParams_error_shape (engine : Engine) (ns : JSNum → String) (params e : JSVal)
    (hobj : isNullish params = false)
    (h : validateParams engine ns params = .error e) :
    ∃ msg, e = errorWithMessage msg := by
  obtain ⟨amount, ha⟩ := (getProp_ok_iff_not_nullish params "amount").mpr hobj
  obtain ⟨timeout, ht⟩ := (getProp_ok_iff_not_nullish params "timeout").mpr hobj
  obtain ⟨notes, hn⟩ := (getProp_ok_iff_not_nullish params "notes").mpr hobj
  obtain ⟨cb, hc⟩ := (getProp_ok_iff_not_nullish params "callback_url").mpr hobj
  obtain ⟨ru, hr⟩ := (getProp_ok_iff_not_nullish params "return_url").mpr hobj
  rw [validateParams_eq engine ns params _ _ _ _ _ ha ht hn hc hr] at h
  repeat' split at h
  all_goals first
    | exact ⟨_, (Except.error.inj h).symm⟩
    | cases h

theorem processStatus_demo (status payId raw : JSVal) :
    processStatus demoHandlers status payId raw = .ok () := by
  simp only [processStatus, demoHandlers]
  repeat' split
  all_goals rfl

theorem webhookTry_error_not_nullish (handlers : Handlers) (store : Store) (body e : JSVal)
    (hh : ∀ status payId raw err, processStatus handlers status payId raw = .error err →
      isNullish err = false)
    (h : (webhookTry handlers store body).1 = .error e) : isNullish e = false := by
  unfold webhookTry at h
  cases hp : getProp body "pay_id" with
  | error x =>
    simp only [hp] at h
    cases h
    rw [getProp_error_eq hp]; rfl
  | ok payId =>
    simp only [hp] at h
    cases hs : processStatus handlers (getPropOpt body "status") payId (getPropOpt body "raw") with
    | error x =>
      simp only [hs] at h
      cases h
      exact hh _ _ _ _ hs
    | ok u =>
      simp only [hs] at h
      cases h

theorem numLt_false_of_numLe {x y : JSNum} (h : numLe x y = true) : numLt y x = false := by
  cases x <;> cases y <;> simp only [numLe] at h <;>
    first
      | (cases h)
      | (simpa using h)

theorem truthy_of_atLeast_one (engine : Engine) (ns : JSNum → String) (v : JSVal)
    (hempty : engine.stringToNumber "" = .fin 0) (h : atLeast engine ns v 1 = true) :
    truthy v = true := by
  cases v with
  | undefined => simp [atLeast, toNumberJS, numLe] at h
  | null => simp [atLeast, toNumberJS, numLe, numLt] at h
  | bool b => cases b <;> simp_all [atLeast, toNumberJS, numLe, numLt, truthy]
  | num n =>
    cases n with
    | fin q =>
      simp only [atLeast, toNumberJS, numLe, numLt, Bool.not_eq_true', decide_eq_false_iff_not,
        not_lt] at h
      have : q ≠ 0 := by intro h0; rw [h0] at h; norm_num at h
      simp [truthy, this]
    | nan => simp [atLeast, toNumberJS, numLe] at h
    | inf b => rfl
  | str s =>
    by_cases hs : s = ""
    · subst hs
      simp [atLeast, toNumberJS, hempty, numLe, numLt] at h
    · simp [truthy, hs]
  | arr items => rfl
  | obj fields => rfl

theorem range_reading (engine : Engine) (ns : JSNum → String) (n : JSNum)
    (ht : truthy (.num n) = true) :
    (lessThan engine ns (.num n) 60000 = true ∨ greaterThan engine ns (.num n) 3600000 = true) ↔
      ¬ (atLeast engine ns (.num n) 60000 = true ∧ atMost engine ns (.num n) 3600000 = true) := by
  cases n with
  | fin t =>
    simp only [lessThan, greaterThan, atLeast, atMost, toNumberJS, numLt, numLe,
      decide_eq_true_eq, Bool.not_eq_true', decide_eq_false_iff_not, not_lt, not_and_or, not_le]
  | nan => simp [truthy] at ht
  | inf b => cases b <;> simp [lessThan, greaterThan, atLeast, atMost, toNumberJS, numLt, numLe]

/-- On a value that is not `null` or `undefined`, a property read is the optional read. -/
theorem getProp_eq_getPropOpt (v : JSVal) (k : String) (h : isNullish v = false) :
    getProp v k = .ok (getPropOpt v k) := by
  cases v <;> simp_all [getProp, getPropOpt, isNullish, pure, Except.pure]

/-- On `null` and `undefined` the optional read is `undefined` and the plain read throws. -/
theorem getPropOpt_nullish (v : JSVal) (k : String) (h : isNullish v = true) :
    getPropOpt v k = .undefined ∧ getProp v k = .error typeError := by
  cases v <;> simp_all [getProp, getPropOpt, isNullish, throw, throwThe, MonadExceptOf.throw]

/-- The first guard reads `params.amount`, which throws on a `null` or `undefined` params. -/
theorem validateParams_nullish (engine : Engine) (ns : JSNum → String) (params : JSVal)
    (h : isNullish params = true) :
    validateParams engine ns params = .error typeError := by
  simp only [validateParams, (getPropOpt_nullish params "amount" h).2, bind, Except.bind]

/-- A `throw` in a program is the early rejection of the method, with the state untouched. -/
theorem throwValue_program (e : JSVal) (s : InstanceState) :
    (Method.throwValue e : Method JSVal) s =
      ((rejectEarly e).result, { self := s.self, sent := s.sent ++ (rejectEarly e).sent }) := by
  simp [Method.throwValue, rejectEarly]

/-- Each body as a program returns or throws what the method does, appends to the log the
requests the method sends, and ends on the instance it started on. -/
theorem program_eq (env : Env) (op : Operation) (s : InstanceState) :
    op.program env s =
      ((op.run env s.self).call.result,
        { self := s.self, sent := s.sent ++ (op.run env s.self).call.sent }) := by
  cases op with
  | createTransaction params =>
    simp only [Operation.program, Operation.run, createTransactionM, createTransaction]
    cases h : getProp params "amount" with
    | error e => simp [bind, Method.eval, rejectEarly]
    | ok amount =>
      by_cases hv : truthy amount = true
      · simp only [bind, Method.eval, Method.readThis, Method.request, hv, Bool.not_true,
          Bool.false_eq_true, if_false, createPayload, issue]
        cases axiosRequest env s.self _ <;> rfl
      · simp [bind, Method.eval, hv, throwValue_program]
  | getTransaction transactionId accessKey =>
    simp only [Operation.program, Operation.run, getTransactionM, getTransaction]
    split
    · exact throwValue_program _ s
    · simp only [bind, Method.eval, Method.readThis, Method.request, issue]
      cases axiosRequest env s.self _ <;> rfl
  | cancelTransaction transactionId reason =>
    simp only [Operation.program, Operation.run, cancelTransactionM, cancelTransaction]
    split
    · exact throwValue_program _ s
    · simp only [bind, Method.eval, Method.readThis, Method.request, issue]
      cases axiosRequest env s.self _ <;> rfl
  | sendCallback params =>
    simp only [Operation.program, Operation.run, sendCallbackM, sendCallback]
    cases h : getProp params "action" with
    | error e => simp [bind, Method.eval, rejectEarly]
    | ok action =>
      simp only [bind, Method.eval]
      split
      · exact throwValue_program _ s
      · cases h2 : getProp params "app" with
        | error e => simp [rejectEarly]
        | ok app =>
          cases h3 : getProp params "notification" with
          | error e => simp [rejectEarly]
          | ok notification =>
            simp only []
            split
            · exact throwValue_program _ s
            · simp only [Method.readThis, Method.request, callbackPayload, issue]
              cases axiosRequest env s.self _ <;> rfl
  | getPaymentUrl transactionId accessKey =>
    simp only [Operation.program, Operation.run, getPaymentUrlM, getPaymentUrl]
    split
    · exact throwValue_program _ s
    · simp [bind, Method.readThis, pure]
  | verifyCallback callbackData signature =>
    simp [Operation.program, Operation.run, verifyCallbackM, verifyCallback, pure]

/-- The constructor as a program throws exactly when `construct` does, sends nothing, and
leaves on the instance the fields of the client `construct` returns. -/
theorem constructorM_eq (config : JSVal) (s : InstanceState) :
    (constructorM config s).1 = (construct config).map (fun _ => ()) ∧
    (constructorM config s).2.sent = s.sent ∧
    (∀ c, construct config = .ok c → (constructorM config s).2.self = c) := by
  unfold constructorM construct
  by_cases hc : truthy config = true
  · have hn : isNullish config = false := by
      cases config <;> simp_all [truthy, isNullish]
    simp only [hc, getProp_eq_getPropOpt config _ hn, bind, Except.bind, Method.eval,
      Method.assign, Method.readThis, Method.throwValue, Bool.not_true, Bool.false_eq_true,
      if_false, pure, Except.pure, throw, throwThe, MonadExceptOf.throw]
    by_cases ha : truthy (getPropOpt config "apiKey") = true
    · simp [ha, Except.map]
    · simp [ha, Except.map, Method.throwValue]
  · simp [hc, Method.throwValue, bind, Except.bind, Except.map, throw, throwThe,
      MonadExceptOf.throw]

/-! ## The claims -/

/-- C1: constructing the client throws `API Key is required` for a `null` or `undefined`
config, for a config object without an `apiKey` field and for one whose `apiKey` is the
empty string; for a config object whose `apiKey` is a non-empty string it succeeds, and
the client holds that key. -/
theorem construct_requires_apiKey :
    construct .null = .error (errorWithMessage "API Key is required") ∧
    construct .undefined = .error (errorWithMessage "API Key is required") ∧
    (∀ fields, lookupField "apiKey" fields = none →
      construct (.obj fields) = .error (errorWithMessage "API Key is required")) ∧
    (∀ fields, lookupField "apiKey" fields = some (.str "") →
      construct (.obj fields) = .error (errorWithMessage "API Key is required")) ∧
    (∀ fields s, lookupField "apiKey" fields = some (.str s) → s ≠ "" →
      ∃ c, construct (.obj fields) = .ok c ∧ c.apiKey = .str s) := by
  refine ⟨rfl, rfl, ?_, ?_, ?_⟩
  · intro fields h
    simp [construct, truthy, getProp, h, bind, Except.bind, pure, Except.pure, throw, throwThe,
      MonadExceptOf.throw]
  · intro fields h
    simp [construct, truthy, getProp, h, bind, Except.bind, pure, Except.pure, throw, throwThe,
      MonadExceptOf.throw]
  · intro fields s h hs
    simp [construct, truthy, getProp, h, hs, bind, Except.bind, pure, Except.pure, throw,
      throwThe, MonadExceptOf.throw]

/-- Witness of C1: the empty config object is rejected, the config with an empty key is
rejected, and the config with the key `KEY-1` builds `sampleClient`. -/
theorem construct_requires_apiKey_witness :
    construct (.obj []) = .error (errorWithMessage "API Key is required") ∧
    construct (.obj [("apiKey", .str "")]) = .error (errorWithMessage "API Key is required") ∧
    (∃ c, construct (.obj [("apiKey", .str "KEY-1")]) = .ok c ∧ c.apiKey = .str "KEY-1") :=
  ⟨construct_requires_apiKey.2.2.1 [] rfl,
    construct_requires_apiKey.2.2.2.1 [("apiKey", .str "")] rfl,
    construct_requires_apiKey.2.2.2.2 [("apiKey", .str "KEY-1")] "KEY-1" rfl (by decide)⟩

/-- C2: for every request object whose `amount` reads as a falsy value (0, `null`,
`undefined` or absent, the empty string), `createTransaction` throws `Amount is required`
and hands no request to the transport. -/
theorem createTransaction_falsy_amount (env : Env) (self : Client)
    (fields : List (String × JSVal)) (amount : JSVal)
    (h : getProp (.obj fields) "amount" = .ok amount) (hf : truthy amount = false) :
    createTransaction env self (.obj fields) =
      { result := .error (errorWithMessage "Amount is required"), sent := [] } := by
  simp [createTransaction, h, hf, rejectEarly]

/-- Witness of C2: the four falsy amounts named by the claim, against a gateway that
would answer any request. -/
theorem createTransaction_falsy_amount_witness :
    createTransaction (sampleEnv (.answered 200 (envelope sampleRecord))) sampleClient
        (.obj [("amount", .num (.fin 0)), ("notes", .str "Test invalid amount")]) =
      { result := .error (errorWithMessage "Amount is required"), sent := [] } ∧
    createTransaction (sampleEnv (.answered 200 (envelope sampleRecord))) sampleClient
        (.obj [("amount", .null)]) =
      { result := .error (errorWithMessage "Amount is required"), sent := [] } ∧
    createTransaction (sampleEnv (.answered 200 (envelope sampleRecord))) sampleClient
        (.obj [("notes", .str "Test missing amount")]) =
      { result := .error (errorWithMessage "Amount is required"), sent := [] } ∧
    createTransaction (sampleEnv (.answered 200 (envelope sampleRecord))) sampleClient
        (.obj [("amount", .str "")]) =
      { result := .error (errorWithMessage "Amount is required"), sent := [] } :=
  ⟨createTransaction_falsy_amount _ _ _ (.num (.fin 0)) rfl rfl,
    createTransaction_falsy_amount _ _ _ .null rfl rfl,
    createTransaction_falsy_amount _ _ _ .undefined rfl rfl,
    createTransaction_falsy_amount _ _ _ (.str "") rfl rfl⟩

/-- C3, at the failing input: for the client configured with `KEY-1`, the request
`amount: 50000, apikey: "OTHER-KEY"` is posted with `apikey` equal to `OTHER-KEY`, the
request's own field, which differs from the configured key. -/
theorem createTransaction_request_apikey_wins (env : Env) :
    sampleClient.apiKey = .str "KEY-1" ∧
    (createTransaction env sampleClient
        (.obj [("amount", .num (.fin 50000)), ("apikey", .str "OTHER-KEY")])).sent =
      [{ method := "POST", url := "/api/qris/create"
         data := some (.obj [("apikey", .str "OTHER-KEY"), ("amount", .num (.fin 50000))])
         config := none }] ∧
    JSVal.str "OTHER-KEY" ≠ JSVal.str "KEY-1" := by
  refine ⟨rfl, rfl, ?_⟩
  simp

/-- C4: for every request whose `amount` is truthy, `createTransaction` issues exactly one
request, a POST to `/api/qris/create` carrying the payload; every own field of the request
reads from the payload with the same value, `amount` in particular; and every own key of
the payload is `apikey` or an own key of the request. -/
theorem createTransaction_payload (env : Env) (self : Client) (params amount : JSVal)
    (h : getProp params "amount" = .ok amount) (hv : truthy amount = true) :
    (createTransaction env self params).sent =
        [{ method := "POST", url := "/api/qris/create"
           data := some (createPayload self amount params), config := none }] ∧
      (∀ k v, hasOwn params k = true → getProp params k = .ok v →
        getProp (createPayload self amount params) k = .ok v) ∧
      getProp (createPayload self amount params) "amount" = .ok amount ∧
      (∀ k, hasOwn (createPayload self amount params) k = true →
        k = "apikey" ∨ hasOwn params k = true) := by
  obtain ⟨fields, rfl, hl⟩ := params_obj_of_truthy_prop h hv
  have hlook : ∀ k, lookupField k (spreadInto (setField "amount" amount
      (setField "apikey" self.apiKey [])) (.obj fields)) =
      (lookupField k fields).or (lookupField k [("apikey", self.apiKey), ("amount", amount)]) := by
    intro k
    rw [lookupField_spreadInto_obj]
    rfl
  refine ⟨?_, ?_, ?_, ?_⟩
  · simp [createTransaction, h, hv, issue]
  · intro k v hk hg
    simp only [hasOwn, Option.isSome_iff_exists] at hk
    obtain ⟨w, hw⟩ := hk
    simp [getProp, pure, Except.pure, hw] at hg
    subst hg
    simp [createPayload, getProp, pure, Except.pure, hlook, hw]
  · simp [createPayload, getProp, pure, Except.pure, hlook, hl]
  · intro k hk
    simp only [createPayload, hasOwn, hlook] at hk ⊢
    by_cases h1 : "apikey" = k
    · exact Or.inl h1.symm
    · right
      cases hf : lookupField k fields with
      | some w => rfl
      | none =>
        rw [hf] at hk
        by_cases h2 : "amount" = k
        · subst h2; rw [hl] at hf; cases hf
        · simp [lookupField, h1, h2] at hk

/-- Witness of C4: the detailed request of the test suite. -/
theorem createTransaction_payload_witness :
    (createTransaction (sampleEnv (.answered 200 (envelope sampleRecord))) sampleClient
        detailedParams).sent =
        [{ method := "POST", url := "/api/qris/create"
           data := some (createPayload sampleClient (.num (.fin 100000)) detailedParams)
           config := none }] ∧
      (∀ k v, hasOwn detailedParams k = true → getProp detailedParams k = .ok v →
        getProp (createPayload sampleClient (.num (.fin 100000)) detailedParams) k = .ok v) ∧
      getProp (createPayload sampleClient (.num (.fin 100000)) detailedParams) "amount" =
        .ok (.num (.fin 100000)) ∧
      (∀ k, hasOwn (createPayload sampleClient (.num (.fin 100000)) detailedParams) k = true →
        k = "apikey" ∨ hasOwn detailedParams k = true) :=
  createTransaction_payload (sampleEnv (.answered 200 (envelope sampleRecord))) sampleClient
    detailedParams (.num (.fin 100000)) rfl rfl

/-- C5: for each of `createTransaction`, `getTransaction`, `cancelTransaction` and
`sendCallback` called with valid arguments, when the transport resolves the request the
operation issues with a response whose `data` is `B`, the operation returns exactly `B`. -/
theorem operations_return_response_body (env : Env) (self : Client) (response B : JSVal)
    (hB : getProp response "data" = .ok B) :
    (∀ params amount, getProp params "amount" = .ok amount → truthy amount = true →
      (∀ req ∈ (createTransaction env self params).sent,
        env.transport self.client req = .ok response) →
      (createTransaction env self params).result = .ok B) ∧
    (∀ transactionId accessKey, truthy transactionId = true → truthy accessKey = true →
      (∀ req ∈ (getTransaction env self transactionId accessKey).sent,
        env.transport self.client req = .ok response) →
      (getTransaction env self transactionId accessKey).result = .ok B) ∧
    (∀ transactionId reason, truthy transactionId = true →
      (∀ req ∈ (cancelTransaction env self transactionId reason).sent,
        env.transport self.client req = .ok response) →
      (cancelTransaction env self transactionId reason).result = .ok B) ∧
    (∀ params app notification, getProp params "action" = .ok (.str "update") →
      getProp params "app" = .ok app → truthy app = true →
      getProp params "notification" = .ok notification → truthy notification = true →
      (∀ req ∈ (sendCallback env self params).sent,
        env.transport self.client req = .ok response) →
      (sendCallback env self params).result = .ok B) := by
  refine ⟨?_, ?_, ?_, ?_⟩
  · intro params amount h hv ht
    simp [createTransaction, h, hv, issue] at ht ⊢
    simp [axiosRequest, ht, responseFulfilled, pure, Except.pure, Except.bind, hB]
  · intro transactionId accessKey h1 h2 ht
    simp [getTransaction, h1, h2, issue] at ht ⊢
    simp [axiosRequest, ht, responseFulfilled, pure, Except.pure, Except.bind, hB]
  · intro transactionId reason h1 ht
    simp [cancelTransaction, h1, issue] at ht ⊢
    simp [axiosRequest, ht, responseFulfilled, pure, Except.pure, Except.bind, hB]
  · intro params app notification ha hp hpt hn hnt ht
    have hu : truthy (.str "update") = true := rfl
    have hs : strictEqStr (.str "update") "update" = true := rfl
    simp [sendCallback, ha, hp, hpt, hn, hnt, issue, hu, hs] at ht ⊢
    simp [axiosRequest, ht, responseFulfilled, pure, Except.pure, Except.bind, hB]

/-- Witness of C5: the four operations against a gateway answering 200 with the sample
envelope. -/
theorem operations_return_response_body_witness :
    (createTransaction (sampleEnv (.answered 200 (envelope sampleRecord))) sampleClient
      (.obj [("amount", .num (.fin 50000))])).result = .ok (envelope sampleRecord) ∧
    (getTransaction (sampleEnv (.answered 200 (envelope sampleRecord))) sampleClient
      (.str "TRX1") (.str "K1")).result = .ok (envelope sampleRecord) ∧
    (cancelTransaction (sampleEnv (.answered 200 (envelope sampleRecord))) sampleClient
      (.str "TRX1") .undefined).result = .ok (envelope sampleRecord) ∧
    (sendCallback (sampleEnv (.answered 200 (envelope sampleRecord))) sampleClient
      (.obj [("action", .str "update"), ("app", .str "dana"),
        ("notification", .str "paid")])).result = .ok (envelope sampleRecord) :=
  have h := operations_return_response_body (sampleEnv (.answered 200 (envelope sampleRecord)))
    sampleClient (axiosResponse 200 (envelope sampleRecord)) (envelope sampleRecord) rfl
  ⟨h.1 _ (.num (.fin 50000)) rfl rfl (fun _ _ => rfl),
    h.2.1 _ _ rfl rfl (fun _ _ => rfl),
    h.2.2.1 _ _ rfl (fun _ _ => rfl),
    h.2.2.2 _ (.str "dana") (.str "paid") rfl rfl rfl rfl rfl (fun _ _ => rfl)⟩

/-- C6 as stated fails: answered with the body `success: true, data: sampleRecord`,
`createTransaction` for `amount: 50000` does not resolve to `sampleRecord`. -/
theorem createTransaction_does_not_unwrap_data :
    (createTransaction (sampleEnv (.answered 200 (envelope sampleRecord))) sampleClient
      (.obj [("amount", .num (.fin 50000))])).result ≠ .ok sampleRecord := by
  have h : (createTransaction (sampleEnv (.answered 200 (envelope sampleRecord))) sampleClient
      (.obj [("amount", .num (.fin 50000))])).result = .ok (envelope sampleRecord) := rfl
  rw [h]
  simp [envelope, sampleRecord]

/-- C6, amended: when the transport answers the POST to `/api/qris/create` for
`amount: 50000` with the body `success: true, data: D`, `createTransaction` resolves to
that whole body, unchanged, and `D` is its `data` field. -/
theorem createTransaction_resolves_to_envelope (env : Env) (self : Client) (response D : JSVal)
    (ht : env.transport self.client
      { method := "POST", url := "/api/qris/create"
        data := some (.obj [("apikey", self.apiKey), ("amount", .num (.fin 50000))])
        config := none } = .ok response)
    (hB : getProp response "data" = .ok (envelope D)) :
    (createTransaction env self (.obj [("amount", .num (.fin 50000))])).result =
        .ok (envelope D) ∧
      getProp (envelope D) "data" = .ok D := by
  refine ⟨?_, rfl⟩
  have hp : createPayload self (.num (.fin 50000)) (.obj [("amount", .num (.fin 50000))]) =
      .obj [("apikey", self.apiKey), ("amount", .num (.fin 50000))] := rfl
  have ha : getProp (.obj [("amount", .num (.fin 50000))]) "amount" =
      .ok (.num (.fin 50000)) := rfl
  have hv : truthy (.num (.fin 50000)) = true := rfl
  simp [createTransaction, ha, hv, issue, hp, axiosRequest, ht, responseFulfilled, pure,
    Except.pure, Except.bind, hB]

/-- Witness of the amended C6: the end-to-end scenario with the sample record. -/
theorem createTransaction_resolves_to_envelope_witness :
    (createTransaction (sampleEnv (.answered 200 (envelope sampleRecord))) sampleClient
        (.obj [("amount", .num (.fin 50000))])).result = .ok (envelope sampleRecord) ∧
      getProp (envelope sampleRecord) "data" = .ok sampleRecord :=
  createTransaction_resolves_to_envelope (sampleEnv (.answered 200 (envelope sampleRecord)))
    sampleClient (axiosResponse 200 (envelope sampleRecord)) sampleRecord rfl rfl

/-- C8: for every response with a status outside 200..299 whose body is an object, the
error thrown by the instance, and so by the operation that issued the request, has
`status` equal to the HTTP status, `data` equal to the body unchanged, and `message` equal
to the body's `message` when that is a non-empty string, and `API request failed` when the
body has no `message` or an empty one. -/
theorem error_response_mapping (ns : JSNum → String) (network : AxiosConfig → Request → Outcome)
    (self : Client) (req : Request) (status : ℤ) (fields : List (String × JSVal))
    (hn : network self.client req = .answered status (.obj fields))
    (h2xx : ¬ (200 ≤ status ∧ status < 300)) :
    ∃ err, axiosRequest (Env.ofNetwork ns network) self req = .error err ∧
      (issue (Env.ofNetwork ns network) self req).result = .error err ∧
      getProp err "status" = .ok (.num (.fin status)) ∧
      getProp err "data" = .ok (.obj fields) ∧
      (∀ s, lookupField "message" fields = some (.str s) → s ≠ "" →
        getProp err "message" = .ok (.str s)) ∧
      (lookupField "message" fields = none ∨ lookupField "message" fields = some (.str "") →
        getProp err "message" = .ok (.str "API request failed")) := by
  refine ⟨.obj
      [("message", .str (toStringJS ns
          (jsOr ((lookupField "message" fields).getD .undefined) (.str "API request failed")))),
       ("status", .num (.fin status)), ("data", .obj fields)], ?_⟩
  have hreq : axiosRequest (Env.ofNetwork ns network) self req = .error (.obj
      [("message", .str (toStringJS ns
          (jsOr ((lookupField "message" fields).getD .undefined) (.str "API request failed")))),
       ("status", .num (.fin status)), ("data", .obj fields)]) := by
    simp only [axiosRequest, Env.ofNetwork, hn, axiosSettle, if_neg h2xx]
    exact responseRejected_of_body ns _ (axiosResponse status (.obj fields)) (.num (.fin status))
      fields rfl rfl rfl
  refine ⟨hreq, ?_, rfl, rfl, ?_, ?_⟩
  · simp [issue, hreq, Except.bind]
  · intro s hs hne
    simp [getProp_obj, lookupField, hs, jsOr, truthy, hne, toStringJS]
  · rintro (h | h) <;>
      simp [getProp_obj, lookupField, h, jsOr, truthy, toStringJS]

/-- Witness of C8: status 400 with the body `message: "Amount too low", errors: [...]`
yields an error with status 400, message `Amount too low` and that exact body. -/
theorem error_response_mapping_witness :
    ∃ err, axiosRequest (sampleEnv (.answered 400 tooLowBody)) sampleClient
        { method := "POST", url := "/api/qris/create"
          data := some (.obj [("apikey", .str "KEY-1"), ("amount", .num (.fin 50000))])
          config := none } = .error err ∧
      (createTransaction (sampleEnv (.answered 400 tooLowBody)) sampleClient
        (.obj [("amount", .num (.fin 50000))])).result = .error err ∧
      getProp err "status" = .ok (.num (.fin ((400 : ℤ) : ℚ))) ∧
      getProp err "data" = .ok tooLowBody ∧
      getProp err "message" = .ok (.str "Amount too low") :=
  match error_response_mapping sampleNumToString (fun _ _ => .answered 400 tooLowBody)
      sampleClient
      { method := "POST", url := "/api/qris/create"
        data := some (.obj [("apikey", .str "KEY-1"), ("amount", .num (.fin 50000))])
        config := none }
      400 _ rfl (by decide) with
  | ⟨err, h1, h2, h3, h4, h5, _⟩ => ⟨err, h1, h2, h3, h4, h5 "Amount too low" rfl (by decide)⟩

/-- C9: when the transport rejects with an error that has a request attached and no
response, the error thrown to the caller is a fresh error with message
`No response from server` and neither a `status` nor a `data` field. -/
theorem no_response_mapping (env : Env) (self : Client) (req : Request)
    (error response request : JSVal)
    (ht : env.transport self.client req = .error error)
    (hr : getProp error "response" = .ok response) (hrf : truthy response = false)
    (hq : getProp error "request" = .ok request) (hqt : truthy request = true) :
    axiosRequest env self req = .error (errorWithMessage "No response from server") ∧
      (issue env self req).result = .error (errorWithMessage "No response from server") ∧
      hasOwn (errorWithMessage "No response from server") "status" = false ∧
      hasOwn (errorWithMessage "No response from server") "data" = false ∧
      getProp (errorWithMessage "No response from server") "message" =
        .ok (.str "No response from server") := by
  have h : axiosRequest env self req = .error (errorWithMessage "No response from server") := by
    simp [axiosRequest, ht, responseRejected, hr, hrf, hq, hqt, bind, Except.bind, throw,
      throwThe, MonadExceptOf.throw]
  refine ⟨h, ?_, rfl, rfl, rfl⟩
  simp [issue, h, Except.bind]

/-- Witness of C9: a request that the network leaves unanswered. -/
theorem no_response_mapping_witness :
    axiosRequest (sampleEnv .unanswered) sampleClient
        { method := "GET", url := "/api/qris/transaction/TRX1", data := none
          config := some (.obj [("params", .obj [("key", .str "K1")])]) } =
        .error (errorWithMessage "No response from server") ∧
      (issue (sampleEnv .unanswered) sampleClient
        { method := "GET", url := "/api/qris/transaction/TRX1", data := none
          config := some (.obj [("params", .obj [("key", .str "K1")])]) }).result =
        .error (errorWithMessage "No response from server") ∧
      hasOwn (errorWithMessage "No response from server") "status" = false ∧
      hasOwn (errorWithMessage "No response from server") "data" = false ∧
      getProp (errorWithMessage "No response from server") "message" =
        .ok (.str "No response from server") :=
  no_response_mapping (sampleEnv .unanswered) sampleClient _ _ .undefined
    (requestHandle
      { method := "GET", url := "/api/qris/transaction/TRX1", data := none
        config := some (.obj [("params", .obj [("key", .str "K1")])]) })
    rfl rfl rfl rfl rfl

/-- C10: when the transport rejects with an error that has neither a response nor a
request attached, the error mapping throws that same error value, and so does the
operation. -/
theorem other_failure_rethrown (env : Env) (self : Client) (req : Request)
    (error response request : JSVal)
    (ht : env.transport self.client req = .error error)
    (hr : getProp error "response" = .ok response) (hrf : truthy response = false)
    (hq : getProp error "request" = .ok request) (hqf : truthy request = false) :
    responseRejected env.numToString error = .error error ∧
      axiosRequest env self req = .error error ∧
      (issue env self req).result = .error error := by
  have h0 : responseRejected env.numToString error = .error error := by
    simp [responseRejected, hr, hrf, hq, hqf, bind, Except.bind, throw,
      throwThe, MonadExceptOf.throw]
  have h : axiosRequest env self req = .error error := by
    simp [axiosRequest, ht, h0]
  refine ⟨h0, h, ?_⟩
  simp [issue, h, Except.bind]

/-- Witness of C10: a failure raised while the request is set up. -/
theorem other_failure_rethrown_witness :
    responseRejected sampleNumToString setupFailure = .error setupFailure ∧
      axiosRequest (sampleEnv (.unsent setupFailure)) sampleClient
        { method := "POST", url := "/api/qris/create", data := none, config := none } =
        .error setupFailure ∧
      (issue (sampleEnv (.unsent setupFailure)) sampleClient
        { method := "POST", url := "/api/qris/create", data := none, config := none }).result =
        .error setupFailure :=
  other_failure_rethrown (sampleEnv (.unsent setupFailure)) sampleClient _ setupFailure
    .undefined .undefined rfl rfl rfl rfl rfl

/-- C11: for truthy (non-empty) `transactionId` and `accessKey`, `getPaymentUrl` returns
the base URL, `/transaction/`, the id, `?key=` and the key, each through ToString, and
sends nothing; for string arguments and a string base URL the result is exactly
`baseURL ++ "/transaction/" ++ transactionId ++ "?key=" ++ accessKey`, the same for every
runtime and every client with that base URL. -/
theorem getPaymentUrl_value (env : Env) (self : Client) (transactionId accessKey : JSVal)
    (h1 : truthy transactionId = true) (h2 : truthy accessKey = true) :
    getPaymentUrl env self transactionId accessKey =
        { result := .ok (.str (toStringJS env.numToString self.baseURL ++ "/transaction/" ++
            toStringJS env.numToString transactionId ++ "?key=" ++
            toStringJS env.numToString accessKey))
          sent := [] } ∧
      (∀ (env' : Env) (other : Client) (b t k : String),
        self.baseURL = .str b → other.baseURL = .str b →
        transactionId = .str t → accessKey = .str k →
        getPaymentUrl env self transactionId accessKey =
            { result := .ok (.str (b ++ "/transaction/" ++ t ++ "?key=" ++ k)), sent := [] } ∧
          getPaymentUrl env' other transactionId accessKey =
            getPaymentUrl env self transactionId accessKey) := by
  have h : getPaymentUrl env self transactionId accessKey =
        { result := .ok (.str (toStringJS env.numToString self.baseURL ++ "/transaction/" ++
            toStringJS env.numToString transactionId ++ "?key=" ++
            toStringJS env.numToString accessKey))
          sent := [] } := by
    simp [getPaymentUrl, h1, h2]
  refine ⟨h, ?_⟩
  intro env' other b t k hb hb' ht hk
  subst ht hk
  simp [getPaymentUrl, h1, h2, hb, hb', toStringJS]

/-- Witness of C11: the sample client, `TRX1` and `K1`. -/
theorem getPaymentUrl_value_witness :
    getPaymentUrl (sampleEnv .unanswered) sampleClient (.str "TRX1") (.str "K1") =
        { result := .ok (.str "https://web.btzpay.my.id/transaction/TRX1?key=K1"), sent := [] } :=
  ((getPaymentUrl_value (sampleEnv .unanswered) sampleClient (.str "TRX1") (.str "K1")
    rfl rfl).2 (sampleEnv .unanswered) sampleClient "https://web.btzpay.my.id" "TRX1" "K1"
    rfl rfl rfl rfl).1

/-- C12: `getPaymentUrl` throws `Transaction ID and access key are required` exactly when
`transactionId` or `accessKey` is falsy, and then the request log is empty; `undefined`
(absent) and the empty string are falsy, every non-empty string is truthy. -/
theorem getPaymentUrl_fails_iff (env : Env) (self : Client) (transactionId accessKey : JSVal) :
    ((getPaymentUrl env self transactionId accessKey).result =
        .error (errorWithMessage "Transaction ID and access key are required") ↔
      (truthy transactionId = false ∨ truthy accessKey = false)) ∧
    ((truthy transactionId = false ∨ truthy accessKey = false) →
      (getPaymentUrl env self transactionId accessKey).sent = []) ∧
    (truthy .undefined = false ∧ truthy (.str "") = false ∧
      ∀ s, s ≠ "" → truthy (.str s) = true) := by
  refine ⟨?_, ?_, rfl, rfl, fun s hs => by simp [truthy, hs]⟩
  · cases h1 : truthy transactionId <;> cases h2 : truthy accessKey <;>
      simp [getPaymentUrl, h1, h2, rejectEarly]
  · intro h
    rcases h with h | h <;> simp [getPaymentUrl, h, rejectEarly]

/-- Witness of C12: an absent id and an empty key fail without a request, `TRX1` with `K1`
does not fail. -/
theorem getPaymentUrl_fails_iff_witness :
    (getPaymentUrl (sampleEnv .unanswered) sampleClient .undefined (.str "K1")).result =
        .error (errorWithMessage "Transaction ID and access key are required") ∧
      (getPaymentUrl (sampleEnv .unanswered) sampleClient (.str "TRX1") (.str "")).sent = [] ∧
      (getPaymentUrl (sampleEnv .unanswered) sampleClient (.str "TRX1") (.str "K1")).result ≠
        .error (errorWithMessage "Transaction ID and access key are required") :=
  ⟨(getPaymentUrl_fails_iff (sampleEnv .unanswered) sampleClient .undefined (.str "K1")).1.mpr
      (Or.inl rfl),
    (getPaymentUrl_fails_iff (sampleEnv .unanswered) sampleClient (.str "TRX1")
      (.str "")).2.1 (Or.inr rfl),
    fun h => absurd
      ((getPaymentUrl_fails_iff (sampleEnv .unanswered) sampleClient (.str "TRX1")
        (.str "K1")).1.mp h) (by simp [truthy])⟩

/-- C13: `getTransaction` throws its validation error with an empty request log whenever
`transactionId` or `accessKey` is falsy (missing), and `cancelTransaction` throws
`Transaction ID is required` with an empty request log whenever `transactionId` is falsy. -/
theorem get_and_cancel_validate_first (env : Env) (self : Client) :
    (∀ transactionId accessKey, truthy transactionId = false ∨ truthy accessKey = false →
      getTransaction env self transactionId accessKey =
        { result := .error (errorWithMessage "Transaction ID and access key are required")
          sent := [] }) ∧
    (∀ transactionId reason, truthy transactionId = false →
      cancelTransaction env self transactionId reason =
        { result := .error (errorWithMessage "Transaction ID is required"), sent := [] }) := by
  refine ⟨?_, ?_⟩
  · intro transactionId accessKey h
    rcases h with h | h <;> simp [getTransaction, h, rejectEarly]
  · intro transactionId reason h
    simp [cancelTransaction, h, rejectEarly]

/-- Witness of C13: a missing id, an empty key, and a cancel without an id. -/
theorem get_and_cancel_validate_first_witness :
    getTransaction (sampleEnv (.answered 200 (envelope sampleRecord))) sampleClient
        .undefined (.str "K1") =
      { result := .error (errorWithMessage "Transaction ID and access key are required")
        sent := [] } ∧
    getTransaction (sampleEnv (.answered 200 (envelope sampleRecord))) sampleClient
        (.str "TRX1") (.str "") =
      { result := .error (errorWithMessage "Transaction ID and access key are required")
        sent := [] } ∧
    cancelTransaction (sampleEnv (.answered 200 (envelope sampleRecord))) sampleClient
        .undefined .undefined =
      { result := .error (errorWithMessage "Transaction ID is required"), sent := [] } :=
  ⟨(get_and_cancel_validate_first _ _).1 _ _ (Or.inl rfl),
    (get_and_cancel_validate_first _ _).1 _ _ (Or.inr rfl),
    (get_and_cancel_validate_first _ _).2 _ _ rfl⟩

/-- C14: for non-empty `transactionId` and `accessKey`, `getTransaction` issues exactly one
request: a GET to `/api/qris/transaction/` followed by the id, with no body and the single
query parameter `key` equal to the access key. -/
theorem getTransaction_request (env : Env) (self : Client) (transactionId accessKey : String)
    (h1 : transactionId ≠ "") (h2 : accessKey ≠ "") :
    (getTransaction env self (.str transactionId) (.str accessKey)).sent =
      [{ method := "GET", url := "/api/qris/transaction/" ++ transactionId, data := none
         config := some (.obj [("params", .obj [("key", .str accessKey)])]) }] := by
  simp [getTransaction, truthy, h1, h2, issue, toStringJS]

/-- Witness of C14: the ids `TRX1` and `K1`. -/
theorem getTransaction_request_witness :
    (getTransaction (sampleEnv .unanswered) sampleClient (.str "TRX1") (.str "K1")).sent =
      [{ method := "GET", url := "/api/qris/transaction/" ++ "TRX1", data := none
         config := some (.obj [("params", .obj [("key", .str "K1")])]) }] :=
  getTransaction_request (sampleEnv .unanswered) sampleClient "TRX1" "K1" (by decide) (by decide)

/-- C15: for a non-empty `transactionId`, `cancelTransaction` issues exactly one POST to
`/api/qris/cancel/` followed by the id, whose body has the two fields `apikey` (the
configured key) and `reason`: `cancelled_by_user` when the reason is omitted, the caller's
reason otherwise. -/
theorem cancelTransaction_request (env : Env) (self : Client) (transactionId : String)
    (h1 : transactionId ≠ "") :
    (cancelTransaction env self (.str transactionId) .undefined).sent =
        [{ method := "POST", url := "/api/qris/cancel/" ++ transactionId
           data := some (.obj [("apikey", self.apiKey), ("reason", .str "cancelled_by_user")])
           config := none }] ∧
      (∀ reason, reason ≠ .undefined →
        (cancelTransaction env self (.str transactionId) reason).sent =
          [{ method := "POST", url := "/api/qris/cancel/" ++ transactionId
             data := some (.obj [("apikey", self.apiKey), ("reason", reason)])
             config := none }]) := by
  refine ⟨?_, ?_⟩
  · simp [cancelTransaction, truthy, h1, issue, toStringJS]
  · intro reason hr
    cases reason <;> simp_all [cancelTransaction, truthy, issue, toStringJS]

/-- Witness of C15: a cancel without a reason and the cancel of the test suite. -/
theorem cancelTransaction_request_witness :
    (cancelTransaction (sampleEnv .unanswered) sampleClient (.str "TRX1") .undefined).sent =
        [{ method := "POST", url := "/api/qris/cancel/" ++ "TRX1"
           data := some (.obj [("apikey", .str "KEY-1"), ("reason", .str "cancelled_by_user")])
           config := none }] ∧
      (cancelTransaction (sampleEnv .unanswered) sampleClient (.str "TRX1")
          (.str "User requested cancellation for testing")).sent =
        [{ method := "POST", url := "/api/qris/cancel/" ++ "TRX1"
           data := some (.obj [("apikey", .str "KEY-1"),
             ("reason", .str "User requested cancellation for testing")])
           config := none }] :=
  ⟨(cancelTransaction_request (sampleEnv .unanswered) sampleClient "TRX1" (by decide)).1,
    (cancelTransaction_request (sampleEnv .unanswered) sampleClient "TRX1" (by decide)).2
      (.str "User requested cancellation for testing") (by simp)⟩

/-- C16: for a params object, `sendCallback` throws one of its two validation errors and
sends nothing when `action` is not exactly `"update"` or `app` or `notification` is
falsy; otherwise it issues exactly one request; so its request log is empty exactly in
the invalid case. -/
theorem sendCallback_validation (env : Env) (self : Client) (fields : List (String × JSVal))
    (action app notification : JSVal)
    (ha : getProp (.obj fields) "action" = .ok action)
    (hp : getProp (.obj fields) "app" = .ok app)
    (hn : getProp (.obj fields) "notification" = .ok notification) :
    ((action ≠ .str "update" ∨ truthy app = false ∨ truthy notification = false) →
      (sendCallback env self (.obj fields)).sent = [] ∧
      ((sendCallback env self (.obj fields)).result =
          .error (errorWithMessage "Action must be \"update\"") ∨
        (sendCallback env self (.obj fields)).result =
          .error (errorWithMessage "App and notification are required"))) ∧
    (¬ (action ≠ .str "update" ∨ truthy app = false ∨ truthy notification = false) →
      (sendCallback env self (.obj fields)).sent =
        [{ method := "POST", url := "/api/qris/callback"
           data := some (callbackPayload self (.obj fields)), config := none }]) ∧
    ((sendCallback env self (.obj fields)).sent = [] ↔
      (action ≠ .str "update" ∨ truthy app = false ∨ truthy notification = false)) := by
  have hu : truthy (.str "update") = true := rfl
  have hs : strictEqStr (.str "update") "update" = true := rfl
  by_cases hact : action = .str "update"
  · subst hact
    cases hpt : truthy app <;> cases hnt : truthy notification <;>
      simp [sendCallback, ha, hp, hn, hpt, hnt, hu, hs, rejectEarly, issue]
  · have hse : strictEqStr action "update" = false := by
      cases h : strictEqStr action "update"
      · rfl
      · exact absurd (strictEqStr_eq_true.mp h) hact
    simp [sendCallback, ha, hse, hact, rejectEarly]

/-- Witness of C16: the invalid-action and missing-fields callbacks of the test suite send
nothing, the Dana callback sends one request. -/
theorem sendCallback_validation_witness :
    (sendCallback (sampleEnv .unanswered) sampleClient (.obj invalidActionCallback)).sent = [] ∧
    (sendCallback (sampleEnv .unanswered) sampleClient (.obj missingFieldsCallback)).sent = [] ∧
    (sendCallback (sampleEnv .unanswered) sampleClient (.obj danaCallback)).sent =
      [{ method := "POST", url := "/api/qris/callback"
         data := some (callbackPayload sampleClient (.obj danaCallback)), config := none }] :=
  ⟨((sendCallback_validation (sampleEnv .unanswered) sampleClient invalidActionCallback
      (.str "invalid_action") (.str "com.dana.id") (.str "Test notification") rfl rfl rfl).1
      (Or.inl (by simp))).1,
    ((sendCallback_validation (sampleEnv .unanswered) sampleClient missingFieldsCallback
      (.str "update") .undefined .undefined rfl rfl rfl).1 (Or.inr (Or.inl rfl))).1,
    (sendCallback_validation (sampleEnv .unanswered) sampleClient danaCallback (.str "update")
      (.str "com.dana.id") (.str "Kamu menerima Rp50.000 dari John Doe") rfl rfl rfl).2.1
      (by simp [truthy])⟩

/-- C17: for every valid callback params object, `sendCallback` posts to
`/api/qris/callback` a payload whose `apikey` is the configured key, also when params has
an `apikey` of its own, and in which every other property reads as it does in params. -/
theorem sendCallback_payload (env : Env) (self : Client) (fields : List (String × JSVal))
    (app notification : JSVal)
    (ha : getProp (.obj fields) "action" = .ok (.str "update"))
    (hp : getProp (.obj fields) "app" = .ok app) (hpt : truthy app = true)
    (hn : getProp (.obj fields) "notification" = .ok notification)
    (hnt : truthy notification = true) :
    (sendCallback env self (.obj fields)).sent =
        [{ method := "POST", url := "/api/qris/callback"
           data := some (callbackPayload self (.obj fields)), config := none }] ∧
      getProp (callbackPayload self (.obj fields)) "apikey" = .ok self.apiKey ∧
      (∀ k, k ≠ "apikey" →
        getProp (callbackPayload self (.obj fields)) k = getProp (.obj fields) k) := by
  have hu : truthy (.str "update") = true := rfl
  have hs : strictEqStr (.str "update") "update" = true := rfl
  refine ⟨?_, ?_, ?_⟩
  · simp [sendCallback, ha, hp, hn, hpt, hnt, hu, hs, issue]
  · simp [lookupField_callbackPayload]
  · intro k hk
    simp [lookupField_callbackPayload, hk]

/-- Witness of C17: a valid callback that carries its own `apikey`. -/
theorem sendCallback_payload_witness :
    (sendCallback (sampleEnv .unanswered) sampleClient (.obj ownKeyCallback)).sent =
        [{ method := "POST", url := "/api/qris/callback"
           data := some (callbackPayload sampleClient (.obj ownKeyCallback)), config := none }] ∧
      getProp (callbackPayload sampleClient (.obj ownKeyCallback)) "apikey" =
        .ok sampleClient.apiKey ∧
      (∀ k, k ≠ "apikey" →
        getProp (callbackPayload sampleClient (.obj ownKeyCallback)) k =
          getProp (.obj ownKeyCallback) k) :=
  sendCallback_payload (sampleEnv .unanswered) sampleClient ownKeyCallback
    (.str "com.dana.id") (.str "Test notification") rfl rfl rfl rfl rfl

/-- C18: `verifyCallback` returns `true` for every payload and every signature, absent
and empty ones included, and sends nothing. -/
theorem verifyCallback_always_true (env : Env) (self : Client) (callbackData signature : JSVal) :
    verifyCallback env self callbackData signature = { result := .ok (.bool true), sent := [] } ∧
    (verifyCallback env self .undefined .undefined).result = .ok (.bool true) ∧
    (verifyCallback env self callbackData (.str "")).result = .ok (.bool true) :=
  ⟨rfl, rfl, rfl⟩

/-- C19 as stated fails: the config with `baseURL: ""` and `timeout: 0` supplied builds a
client whose base URL and timeout are the defaults, not the supplied values. -/
theorem construct_falsy_settings_replaced :
    ∃ c, construct (.obj [("apiKey", .str "KEY-1"), ("baseURL", .str ""),
        ("timeout", .num (.fin 0))]) = .ok c ∧
      c.baseURL = .str "https://web.btzpay.my.id" ∧ c.baseURL ≠ .str "" ∧
      c.timeout = .num (.fin 30000) ∧ c.timeout ≠ .num (.fin 0) := by
  refine ⟨sampleClient, rfl, rfl, ?_, rfl, ?_⟩
  · simp [sampleClient]
  · simp [sampleClient]

/-- C19, amended: for every config with a non-empty `apiKey`, the client's `baseURL` is
the config's when a truthy one is supplied and `https://web.btzpay.my.id` when it is
omitted or falsy, and its `timeout` is the config's when a truthy one is supplied and
30000 when it is omitted or falsy; the axios instance gets the same two values. -/
theorem construct_settings (fields : List (String × JSVal)) (s : String)
    (hk : lookupField "apiKey" fields = some (.str s)) (hs : s ≠ "") :
    ∃ c, construct (.obj fields) = .ok c ∧
      (∀ b, lookupField "baseURL" fields = some b → truthy b = true →
        c.baseURL = b ∧ c.client.baseURL = b) ∧
      (lookupField "baseURL" fields = none ∨
          (∃ b, lookupField "baseURL" fields = some b ∧ truthy b = false) →
        c.baseURL = .str "https://web.btzpay.my.id" ∧
          c.client.baseURL = .str "https://web.btzpay.my.id") ∧
      (∀ t, lookupField "timeout" fields = some t → truthy t = true →
        c.timeout = t ∧ c.client.timeout = t) ∧
      (lookupField "timeout" fields = none ∨
          (∃ t, lookupField "timeout" fields = some t ∧ truthy t = false) →
        c.timeout = .num (.fin 30000) ∧ c.client.timeout = .num (.fin 30000)) := by
  have hu : truthy .undefined = false := rfl
  refine ⟨_, construct_obj fields s hk hs, ?_, ?_, ?_, ?_⟩
  · intro b hb hbt
    simp [hb, jsOr, hbt]
  · rintro (h | ⟨b, hb, hbt⟩)
    · simp [h, jsOr, hu]
    · simp [hb, jsOr, hbt]
  · intro t ht htt
    simp [ht, jsOr, htt]
  · rintro (h | ⟨t, ht, htt⟩)
    · simp [h, jsOr, hu]
    · simp [ht, jsOr, htt]

/-- Witness of the amended C19: a supplied base URL is kept, a supplied timeout of 0 is
replaced by 30000. -/
theorem construct_settings_witness :
    ∃ c, construct (.obj [("apiKey", .str "KEY-1"), ("baseURL", .str "http://localhost:3000"),
        ("timeout", .num (.fin 0))]) = .ok c ∧
      c.baseURL = .str "http://localhost:3000" ∧ c.timeout = .num (.fin 30000) :=
  match construct_settings [("apiKey", .str "KEY-1"), ("baseURL", .str "http://localhost:3000"),
      ("timeout", .num (.fin 0))] "KEY-1" rfl (by decide) with
  | ⟨c, hc, hb, _, _, ht⟩ =>
    ⟨c, hc, (hb (.str "http://localhost:3000") rfl rfl).1,
      (ht (Or.inr ⟨.num (.fin 0), rfl, rfl⟩)).1⟩

/-- C20: `createTransaction` throws `Amount is required`, sending nothing, exactly when
the request's `amount` is falsy; with a truthy amount the request is posted and the
outcome is whatever the instance returns for it, no other client-side check applies. -/
theorem createTransaction_only_checks_amount (env : Env) (self : Client)
    (params amount : JSVal) (h : getProp params "amount" = .ok amount) :
    ((createTransaction env self params).result =
        .error (errorWithMessage "Amount is required") ∧
      (createTransaction env self params).sent = [] ↔ truthy amount = false) ∧
    (truthy amount = true →
      (createTransaction env self params).sent =
        [{ method := "POST", url := "/api/qris/create"
           data := some (createPayload self amount params), config := none }] ∧
      (createTransaction env self params).result =
        (axiosRequest env self
          { method := "POST", url := "/api/qris/create"
            data := some (createPayload self amount params), config := none }).bind
          (fun response => getProp response "data")) := by
  cases hv : truthy amount <;> simp [createTransaction, h, hv, rejectEarly, issue]

/-- Witness of C20: a negative, a fractional and a string amount, and a request with a
timeout of 1 ms and a note of 2001 characters, all reach the gateway. -/
theorem createTransaction_only_checks_amount_witness :
    (createTransaction (sampleEnv (.answered 200 (envelope sampleRecord))) sampleClient
      (.obj [("amount", .num (.fin (-5)))])).result = .ok (envelope sampleRecord) ∧
    (createTransaction (sampleEnv (.answered 200 (envelope sampleRecord))) sampleClient
      (.obj [("amount", .num (.fin (1 / 2)))])).sent =
        [{ method := "POST", url := "/api/qris/create"
           data := some (createPayload sampleClient (.num (.fin (1 / 2)))
             (.obj [("amount", .num (.fin (1 / 2)))])), config := none }] ∧
    (createTransaction (sampleEnv (.answered 200 (envelope sampleRecord))) sampleClient
      (.obj [("amount", .str "abc")])).result = .ok (envelope sampleRecord) ∧
    (createTransaction (sampleEnv (.answered 200 (envelope sampleRecord))) sampleClient
      (.obj [("amount", .num (.fin 1)), ("timeout", .num (.fin 1)),
        ("notes", .str longNotes)])).result = .ok (envelope sampleRecord) ∧
    2000 < longNotes.length :=
  ⟨((createTransaction_only_checks_amount _ sampleClient (.obj [("amount", .num (.fin (-5)))])
      (.num (.fin (-5))) rfl).2 rfl).2,
    ((createTransaction_only_checks_amount _ sampleClient
      (.obj [("amount", .num (.fin (1 / 2)))]) (.num (.fin (1 / 2))) rfl).2
      (by simp [truthy])).1,
    ((createTransaction_only_checks_amount _ sampleClient (.obj [("amount", .str "abc")])
      (.str "abc") rfl).2 rfl).2,
    ((createTransaction_only_checks_amount _ sampleClient
      (.obj [("amount", .num (.fin 1)), ("timeout", .num (.fin 1)),
        ("notes", .str longNotes)]) (.num (.fin 1)) rfl).2 rfl).2,
    by
      have h : longNotes.length = 2001 := List.length_replicate _ _
      omega⟩

/-- C21: every call of every operation hands at most one request to the transport:
exactly one when the validation at the head of the method passes, none when it fails, and
none at all for `getPaymentUrl` and `verifyCallback`. -/
theorem operations_send_at_most_one (env : Env) (self : Client) (op : Operation) :
    (op.run env self).call.sent.length ≤ 1 ∧
    (op.valid = true → (op.run env self).call.sent.length = 1) ∧
    (op.valid = false → (op.run env self).call.sent = []) ∧
    (∀ transactionId accessKey,
      (Operation.run env self (.getPaymentUrl transactionId accessKey)).call.sent = []) ∧
    (∀ callbackData signature,
      (Operation.run env self (.verifyCallback callbackData signature)).call.sent = []) := by
  have key := run_sent_length env self op
  refine ⟨?_, ?_, ?_, ?_, ?_⟩
  · rw [key]; split <;> simp
  · intro h; rw [key, if_pos h]
  · intro h
    have : (op.run env self).call.sent.length = 0 := by rw [key]; simp [h]
    exact List.length_eq_zero.mp this
  · intro transactionId accessKey
    cases h1 : truthy transactionId <;> cases h2 : truthy accessKey <;>
      simp [Operation.run, getPaymentUrl, h1, h2, rejectEarly]
  · intro callbackData signature
    rfl

/-- Witness of C21: a valid create sends one request, a create without amount sends
none. -/
theorem operations_send_at_most_one_witness :
    (Operation.run (sampleEnv .unanswered) sampleClient
      (.createTransaction (.obj [("amount", .num (.fin 50000))]))).call.sent.length = 1 ∧
    (Operation.run (sampleEnv .unanswered) sampleClient
      (.createTransaction (.obj []))).call.sent = [] :=
  ⟨(operations_send_at_most_one (sampleEnv .unanswered) sampleClient
      (.createTransaction (.obj [("amount", .num (.fin 50000))]))).2.1 rfl,
    (operations_send_at_most_one (sampleEnv .unanswered) sampleClient
      (.createTransaction (.obj []))).2.2.1 rfl⟩

/-- C22: for each of the four request operations called with valid arguments, when the
transport rejects the request it issued, the operation throws what the error mapping
throws for that rejection, returns no value, and has issued that one request only. -/
theorem failures_are_surfaced (env : Env) (self : Client) (op : Operation) (error : JSVal)
    (hv : op.valid = true)
    (ht : ∀ req ∈ (op.run env self).call.sent, env.transport self.client req = .error error) :
    (op.run env self).call.result = responseRejected env.numToString error ∧
      (∃ err, (op.run env self).call.result = .error err) ∧
      (op.run env self).call.sent.length = 1 := by
  obtain ⟨err, he, _⟩ := responseRejected_throws env.numToString error
  have hlen : (op.run env self).call.sent.length = 1 := by
    rw [run_sent_length, if_pos hv]
  have hres : (op.run env self).call.result = responseRejected env.numToString error := by
    cases op with
    | createTransaction params =>
      cases h : getProp params "amount" with
      | error e => simp [Operation.valid, h] at hv
      | ok amount =>
        have hva : truthy amount = true := by simpa [Operation.valid, h] using hv
        simp only [Operation.run, createTransaction, h, hva] at ht ⊢
        exact (issue_of_rejection env self _ error (ht _ (by simp [issue]))).1
    | getTransaction transactionId accessKey =>
      have h12 : truthy transactionId = true ∧ truthy accessKey = true := by
        simpa [Operation.valid] using hv
      simp only [Operation.run, getTransaction, h12.1, h12.2] at ht ⊢
      exact (issue_of_rejection env self _ error (ht _ (by simp [issue]))).1
    | cancelTransaction transactionId reason =>
      have h1 : truthy transactionId = true := by simpa [Operation.valid] using hv
      simp only [Operation.run, cancelTransaction, h1] at ht ⊢
      exact (issue_of_rejection env self _ error (ht _ (by simp [issue]))).1
    | sendCallback params =>
      have hsent := sendCallback_sent env self params
      rw [if_pos hv] at hsent
      have hreq := ht { method := "POST", url := "/api/qris/callback"
                        data := some (callbackPayload self params), config := none }
        (by simp [Operation.run, hsent])
      cases ha : getProp params "action" with
      | error e => simp [Operation.valid, ha] at hv
      | ok action =>
        obtain ⟨app, hp⟩ := getProp_ok_of_ok ha "app"
        obtain ⟨notification, hn⟩ := getProp_ok_of_ok ha "notification"
        simp only [Operation.valid, ha, hp, hn, Bool.and_eq_true] at hv
        obtain ⟨⟨h1, h2⟩, h3⟩ := hv
        have hta : truthy action = true := by
          rw [strictEqStr_eq_true.mp h1]; rfl
        simp only [Operation.run, sendCallback, ha, hp, hn, h1, h2, h3, hta]
        exact (issue_of_rejection env self _ error hreq).1
    | getPaymentUrl transactionId accessKey => simp [Operation.valid] at hv
    | verifyCallback callbackData signature => simp [Operation.valid] at hv
  exact ⟨hres, ⟨err, hres.trans he⟩, hlen⟩

/-- Witness of C22: a `getTransaction` whose request gets no answer fails with
`No response from server` after one request. -/
theorem failures_are_surfaced_witness :
    (Operation.run (sampleEnv .unanswered) sampleClient
        (.getTransaction (.str "TRX1") (.str "K1"))).call.result =
      .error (errorWithMessage "No response from server") ∧
    (Operation.run (sampleEnv .unanswered) sampleClient
        (.getTransaction (.str "TRX1") (.str "K1"))).call.sent.length = 1 :=
  have h := failures_are_surfaced (sampleEnv .unanswered) sampleClient
    (.getTransaction (.str "TRX1") (.str "K1"))
    (.obj [("name", .str "AxiosError"),
      ("request", requestHandle
        { method := "GET", url := "/api/qris/transaction/TRX1", data := none
          config := some (.obj [("params", .obj [("key", .str "K1")])]) })])
    rfl
    (fun req hreq => by
      have hs : (Operation.run (sampleEnv .unanswered) sampleClient
          (.getTransaction (.str "TRX1") (.str "K1"))).call.sent =
          [{ method := "GET", url := "/api/qris/transaction/TRX1", data := none
             config := some (.obj [("params", .obj [("key", .str "K1")])]) }] := rfl
      rw [hs, List.mem_singleton] at hreq
      subst hreq
      rfl)
  ⟨h.1.trans rfl, h.2.2⟩

/-- C23: with the bodies of `index.js` written as programs that can assign to the fields of
`this`, every one of the six methods, from every state of the instance, under every
network behaviour and whether it returns or throws, ends on the instance it started on;
so does every sequence of calls, and `apiKey`, `baseURL` and `timeout` after the sequence
are the ones before it.  The programs are the methods of the other statements: they return
or throw the same value and send the same requests.  The constructor, written the same
way, does assign: it leaves on the instance the fields of the client it constructs, and on
a fresh instance it sets those of the sample client. -/
theorem operations_leave_config_unchanged (world : ℕ → Env) (s : InstanceState) :
    (∀ env op, (Operation.program env op s).2.self = s.self) ∧
    (∀ n ops, (runPrograms world n ops s).2.self = s.self) ∧
    (∀ n ops, (runPrograms world n ops s).2.self.apiKey = s.self.apiKey ∧
      (runPrograms world n ops s).2.self.baseURL = s.self.baseURL ∧
      (runPrograms world n ops s).2.self.timeout = s.self.timeout) ∧
    (∀ env op, (Operation.program env op s).1 = (Operation.run env s.self op).call.result ∧
      (Operation.program env op s).2.sent = s.sent ++ (Operation.run env s.self op).call.sent) ∧
    (∀ config c, construct config = .ok c → (constructorM config s).2.self = c) ∧
    constructorM (.obj [("apiKey", .str "KEY-1")]) freshInstance =
      (.ok (), { self := sampleClient, sent := [] }) ∧
    freshInstance.self.apiKey ≠ sampleClient.apiKey := by
  have h1 : ∀ (t : InstanceState) env op, (Operation.program env op t).2.self = t.self := by
    intro t env op
    rw [program_eq]
  have h2 : ∀ ops n (t : InstanceState), (runPrograms world n ops t).2.self = t.self := by
    intro ops
    induction ops with
    | nil => intro n t; rfl
    | cons op ops ih =>
      intro n t
      simp only [runPrograms]
      rw [ih, h1]
  refine ⟨h1 s, fun n ops => h2 ops n s, ?_, ?_,
    fun config c hc => (constructorM_eq config s).2.2 c hc, rfl, ?_⟩
  · intro n ops
    rw [h2]
    exact ⟨rfl, rfl, rfl⟩
  · intro env op
    rw [program_eq]
    exact ⟨rfl, rfl⟩
  · simp [freshInstance, sampleClient]

/-- Witness of C23: after a create that gets no answer, a payment URL and a create on
`null` that throws a `TypeError`, the sample client still has the key `KEY-1`; and the
constructor on the config `apiKey: "KEY-1"` leaves the sample client on a fresh instance. -/
theorem operations_leave_config_unchanged_witness :
    (runPrograms (fun _ => sampleEnv .unanswered) 0
        [.createTransaction (.obj [("amount", .num (.fin 50000))]),
          .getPaymentUrl (.str "TRX1") (.str "K1"),
          .createTransaction .null]
        { self := sampleClient, sent := [] }).2.self.apiKey = .str "KEY-1" ∧
      construct (.obj [("apiKey", .str "KEY-1")]) = .ok sampleClient ∧
      (constructorM (.obj [("apiKey", .str "KEY-1")]) freshInstance).2.self = sampleClient :=
  ⟨((operations_leave_config_unchanged (fun _ => sampleEnv .unanswered)
      { self := sampleClient, sent := [] }).2.2.1 0
      [.createTransaction (.obj [("amount", .num (.fin 50000))]),
        .getPaymentUrl (.str "TRX1") (.str "K1"),
        .createTransaction .null]).1,
    rfl,
    (operations_leave_config_unchanged (fun _ => sampleEnv .unanswered) freshInstance).2.2.2.2.1
      (.obj [("apiKey", .str "KEY-1")]) sampleClient rfl⟩

/-- C24: the handler of `POST /webhook` answers every request body, whatever its status
field, with status 200 and the body `success: true`; it does so also when processing
throws, for any processing hooks that throw error values. -/
theorem webhook_always_acknowledges (store : Store) (body : JSVal) :
    (webhookHandler demoHandlers store body).1 = some acknowledgement ∧
    acknowledgement.status = 200 ∧
    acknowledgement.body = .obj [("success", .bool true)] ∧
    (∀ handlers : Handlers,
      (∀ status payId raw err, processStatus handlers status payId raw = .error err →
        isNullish err = false) →
      (webhookHandler handlers store body).1 = some acknowledgement) := by
  have general : ∀ handlers : Handlers,
      (∀ status payId raw err, processStatus handlers status payId raw = .error err →
        isNullish err = false) →
      (webhookHandler handlers store body).1 = some acknowledgement := by
    intro handlers hh
    unfold webhookHandler
    cases hw : webhookTry handlers store body with
    | mk r s =>
      cases r with
      | ok reply =>
        have : reply = acknowledgement := by
          unfold webhookTry at hw
          cases hp : getProp body "pay_id" with
          | error x => simp [hp] at hw
          | ok payId =>
            simp only [hp] at hw
            cases hs : processStatus handlers (getPropOpt body "status") payId
                (getPropOpt body "raw") with
            | error x => simp [hs] at hw
            | ok u =>
              simp only [hs, Prod.mk.injEq, Except.ok.injEq] at hw
              exact hw.1.symm
        simp [this]
      | error e =>
        have hn := webhookTry_error_not_nullish handlers store body e hh (by rw [hw])
        obtain ⟨w, hwm⟩ := (getProp_ok_iff_not_nullish e "message").mpr hn
        simp [hwm]
  refine ⟨general demoHandlers ?_, rfl, rfl, general⟩
  intro status payId raw err h
  rw [processStatus_demo] at h
  cases h

/-- Witness of C24: hooks that throw on every notification, and a paid notification. -/
theorem webhook_always_acknowledges_witness :
    (webhookHandler
        { successful := fun _ _ => .error setupFailure
          expired := fun _ _ => .error setupFailure
          cancelled := fun _ _ => .error setupFailure
          failed := fun _ _ => .error setupFailure }
        [] (.obj [("pay_id", .str "TRX1"), ("status", .str "sukses")])).1 =
      some acknowledgement :=
  (webhook_always_acknowledges [] (.obj [("pay_id", .str "TRX1"), ("status", .str "sukses")])).2.2.2
    { successful := fun _ _ => .error setupFailure
      expired := fun _ _ => .error setupFailure
      cancelled := fun _ _ => .error setupFailure
      failed := fun _ _ => .error setupFailure }
    (fun status payId raw err h => by
      simp only [processStatus] at h
      repeat' split at h
      all_goals first
        | (cases h; rfl)
        | cases h)

/-- C25: when an attempt of `pollTransactionStatus` fetches a record with status `status`
(and `onUpdate`, if given, returns normally), the status counts as terminal exactly when
it is `sukses`, `gagal`, `expired` or `cancel`, and `pending` does not; on a terminal
status the loop returns the fetched record at once, after that one call, and otherwise it
goes on with the next attempt. -/
theorem pollLoop_returns_iff_terminal (world : ℕ → Env) (self : Client)
    (transactionId accessKey : JSVal) (onUpdate : Option (JSVal → JSVal → Except JSVal Unit))
    (attempt remaining : ℕ) (details data status : JSVal)
    (hc : (getTransaction (world attempt) self transactionId accessKey).result = .ok details)
    (hd : getProp details "data" = .ok data) (hs : getProp data "status" = .ok status)
    (hup : ∀ f, onUpdate = some f → f status data = .ok ()) :
    (isTerminalStatus status = true ↔
      status = .str "sukses" ∨ status = .str "gagal" ∨ status = .str "expired" ∨
        status = .str "cancel") ∧
    isTerminalStatus (.str "pending") = false ∧
    (isTerminalStatus status = true →
      pollLoop world self transactionId accessKey onUpdate attempt (remaining + 1) =
        { result := .ok data, calls := 1
          sent := (getTransaction (world attempt) self transactionId accessKey).sent }) ∧
    (isTerminalStatus status = false →
      pollLoop world self transactionId accessKey onUpdate attempt (remaining + 1) =
        { result := (pollLoop world self transactionId accessKey onUpdate (attempt + 1)
            remaining).result
          calls := (pollLoop world self transactionId accessKey onUpdate (attempt + 1)
            remaining).calls + 1
          sent := (getTransaction (world attempt) self transactionId accessKey).sent ++
            (pollLoop world self transactionId accessKey onUpdate (attempt + 1)
              remaining).sent }) := by
  have htry : ∀ b, isTerminalStatus status = b →
      pollTry (getTransaction (world attempt) self transactionId accessKey) onUpdate =
        .ok (if b then some data else none) := by
    intro b hb
    cases onUpdate with
    | none => cases b <;> simp [pollTry, hc, hd, hs, hb, bind, Except.bind, pure, Except.pure]
    | some f =>
      cases b <;>
        simp [pollTry, hc, hd, hs, hb, hup f rfl, bind, Except.bind, pure, Except.pure]
  refine ⟨?_, rfl, ?_, ?_⟩
  · simp [isTerminalStatus, strictEqStr_eq_true, or_assoc]
  · intro ht
    simp [pollLoop, pollAttempt, htry true ht]
  · intro ht
    simp [pollLoop, pollAttempt, htry false ht]

/-- Witness of C25: the paid record is returned by the first of 30 attempts. -/
theorem pollLoop_returns_iff_terminal_witness :
    pollLoop (fun _ => sampleEnv (.answered 200 (envelope paidRecord))) sampleClient
        (.str "TRX1") (.str "K1") none 1 (29 + 1) =
      { result := .ok paidRecord, calls := 1
        sent := (getTransaction (sampleEnv (.answered 200 (envelope paidRecord))) sampleClient
          (.str "TRX1") (.str "K1")).sent } :=
  (pollLoop_returns_iff_terminal (fun _ => sampleEnv (.answered 200 (envelope paidRecord)))
    sampleClient (.str "TRX1") (.str "K1") none 1 29 (envelope paidRecord) paidRecord
    (.str "sukses") rfl rfl rfl (fun _ h => nomatch h)).2.2.1 rfl

/-- C26, at the failing input: for the request `notes: "x"`, which has no amount,
`createTransaction` throws the validation error `Amount is required` without sending
anything, on every attempt and under every network behaviour; the error has no `status`,
so `createTransactionWithRetry` with `maxRetries = 3` calls `createTransaction` three
times before it throws that error.  A validation reply of the gateway, HTTP 400 with a
body, does stop the helper after one call; the same reply with a `null` body does not: the
interceptor throws a `TypeError` without `status` and the request is sent three times. -/
theorem createTransactionWithRetry_retries_validation_error (world : ℕ → Env) :
    (∀ attempt, createTransaction (world attempt) sampleClient (.obj [("notes", .str "x")]) =
      { result := .error (errorWithMessage "Amount is required"), sent := [] }) ∧
    getProp (errorWithMessage "Amount is required") "status" = .ok .undefined ∧
    (createTransactionWithRetry world sampleClient (.obj [("notes", .str "x")]) (some 3)).calls
      = 3 ∧
    (createTransactionWithRetry world sampleClient (.obj [("notes", .str "x")]) (some 3)).result
      = .error (errorWithMessage "Amount is required") ∧
    (createTransactionWithRetry world sampleClient (.obj [("notes", .str "x")]) (some 3)).sent
      = [] ∧
    (createTransactionWithRetry (fun _ => sampleEnv (.answered 400 tooLowBody)) sampleClient
      (.obj [("amount", .num (.fin 50000))]) (some 3)).calls = 1 ∧
    (createTransactionWithRetry (fun _ => sampleEnv (.answered 400 .null)) sampleClient
      (.obj [("amount", .num (.fin 50000))]) (some 3)).calls = 3 ∧
    (createTransactionWithRetry (fun _ => sampleEnv (.answered 400 .null)) sampleClient
      (.obj [("amount", .num (.fin 50000))]) (some 3)).sent.length = 3 ∧
    (createTransactionWithRetry (fun _ => sampleEnv (.answered 400 .null)) sampleClient
      (.obj [("amount", .num (.fin 50000))]) (some 3)).result = .error typeError :=
  ⟨fun _ => rfl, rfl, rfl, rfl, rfl, rfl, rfl, rfl, rfl⟩

/-- The retry policy as the code has it, keyed on the thrown error's own `status`:
`createTransactionWithRetry` calls `createTransaction` at most `maxRetries` times (3 by
default); if attempt `k` is the first that does not fail with a status other than 400,
the helper returns its result when it succeeded and rethrows its error when it failed
with status 400, after exactly `k` calls; and if all `maxRetries >= 1` attempts fail with
other statuses it throws the error of the last attempt. -/
theorem createTransactionWithRetry_policy (world : ℕ → Env) (self : Client) (params : JSVal)
    (maxRetries : Option ℕ) :
    (createTransactionWithRetry world self params maxRetries).calls ≤ maxRetries.getD 3 ∧
    (∀ k, 1 ≤ k → k ≤ maxRetries.getD 3 →
      (∀ j, 1 ≤ j → j < k →
        failsWithout400 (createTransaction (world j) self params) = true) →
      (∀ v, (createTransaction (world k) self params).result = .ok v →
        (createTransactionWithRetry world self params maxRetries).result = .ok v ∧
          (createTransactionWithRetry world self params maxRetries).calls = k) ∧
      (∀ e, (createTransaction (world k) self params).result = .error e →
        failsWith400 (createTransaction (world k) self params) = true →
        (createTransactionWithRetry world self params maxRetries).result = .error e ∧
          (createTransactionWithRetry world self params maxRetries).calls = k)) ∧
    (1 ≤ maxRetries.getD 3 →
      (∀ j, 1 ≤ j → j ≤ maxRetries.getD 3 →
        failsWithout400 (createTransaction (world j) self params) = true) →
      ∃ e, (createTransaction (world (maxRetries.getD 3)) self params).result = .error e ∧
        (createTransactionWithRetry world self params maxRetries).result = .error e ∧
        (createTransactionWithRetry world self params maxRetries).calls =
          maxRetries.getD 3) := by
  refine ⟨(retryLoop_bounded _ _ _ _ _ _).1, ?_, ?_⟩
  · intro k hk1 hk2 hfail
    obtain ⟨k', rfl⟩ : ∃ k', k = k' + 1 := ⟨k - 1, by omega⟩
    have h := retryLoop_decisive world self params k' .undefined 1 (maxRetries.getD 3)
      (by omega) (fun j hj => hfail (1 + j) (by omega) (by omega))
    have e1 : 1 + k' = k' + 1 := by omega
    rw [e1] at h
    exact h
  · intro h1 hfail
    obtain ⟨n, hn⟩ : ∃ n, maxRetries.getD 3 = n + 1 := ⟨maxRetries.getD 3 - 1, by omega⟩
    have h := retryLoop_exhausted world self params n .undefined 1
      (fun j hj => hfail (1 + j) (by omega) (by omega))
    have e1 : 1 + n = n + 1 := by omega
    rw [e1] at h
    unfold createTransactionWithRetry
    rw [hn]
    exact h

/-- The retry policy on a network whose first attempt gets no answer and whose second
succeeds. -/
theorem createTransactionWithRetry_policy_witness :
    (createTransactionWithRetry flakyWorld sampleClient
        (.obj [("amount", .num (.fin 50000))]) none).result = .ok (envelope sampleRecord) ∧
      (createTransactionWithRetry flakyWorld sampleClient
        (.obj [("amount", .num (.fin 50000))]) none).calls = 2 :=
  ((createTransactionWithRetry_policy flakyWorld sampleClient
      (.obj [("amount", .num (.fin 50000))]) none).2.1 2 (by decide) (by decide)
    (fun j h1 h2 => by
      have hj : j = 1 := by omega
      subst hj
      rfl)).1 (envelope sampleRecord) rfl

/-- C27 as stated fails: the request `amount: 1, timeout: 0` has a timeout outside
60000..3600000, yet `createValidatedTransaction` does not reject it: it behaves as
`createTransaction` on it and the request reaches the gateway. -/
theorem createValidatedTransaction_zero_timeout_passes :
    createValidatedTransaction sampleEngine (sampleEnv (.answered 200 (envelope sampleRecord)))
        sampleClient (.obj [("amount", .num (.fin 1)), ("timeout", .num (.fin 0))]) =
      createTransaction (sampleEnv (.answered 200 (envelope sampleRecord))) sampleClient
        (.obj [("amount", .num (.fin 1)), ("timeout", .num (.fin 0))]) ∧
    (createValidatedTransaction sampleEngine (sampleEnv (.answered 200 (envelope sampleRecord)))
        sampleClient (.obj [("amount", .num (.fin 1)), ("timeout", .num (.fin 0))])).sent.length
      = 1 ∧
    (createValidatedTransaction sampleEngine (sampleEnv (.answered 200 (envelope sampleRecord)))
        sampleClient (.obj [("amount", .num (.fin 1)), ("timeout", .num (.fin 0))])).result =
      .ok (envelope sampleRecord) ∧
    ¬ ((60000 : ℚ) ≤ 0 ∧ (0 : ℚ) ≤ 3600000) := by
  refine ⟨rfl, rfl, rfl, ?_⟩
  norm_num

/-- C27, amended: for every engine that reads the empty string as 0 (as ToNumber does) and
every params value, `createValidatedTransaction` rejects, with nothing sent, a params whose
amount is missing (falsy, or params itself is `null` or `undefined`) or less than 1, whose
timeout is truthy and below 60000 or above 3600000, or whose notes are truthy and have a
length above 2000; the error is one of the messages of the guards unless params is `null`
or `undefined`.  A params with amount at least 1, timeout falsy or between 60000 and
3600000 inclusive, notes falsy or of length at most 2000, and URLs falsy or valid is handed
to `createTransaction` unchanged.  The comparisons are JavaScript's, on any value (string
amounts, infinities, `NaN`).  For a truthy number, below 60000 or above 3600000 is the same
as not between the two inclusive, and the length of a string is its number of UTF-16 code
units. -/
theorem createValidatedTransaction_guards (engine : Engine) (env : Env) (self : Client)
    (params : JSVal) (hempty : engine.stringToNumber "" = .fin 0) :
    ((truthy (getPropOpt params "amount") = false ∨
        lessThan engine env.numToString (getPropOpt params "amount") 1 = true ∨
        (truthy (getPropOpt params "timeout") = true ∧
          (lessThan engine env.numToString (getPropOpt params "timeout") 60000 = true ∨
            greaterThan engine env.numToString (getPropOpt params "timeout") 3600000 = true)) ∨
        (truthy (getPropOpt params "notes") = true ∧
          greaterThan engine env.numToString
            (getLength (getPropOpt params "notes")) 2000 = true)) →
      (createValidatedTransaction engine env self params).sent = [] ∧
        ∃ e, (createValidatedTransaction engine env self params).result = .error e ∧
          (isNullish params = false → ∃ msg, e = errorWithMessage msg)) ∧
    (atLeast engine env.numToString (getPropOpt params "amount") 1 = true →
      (truthy (getPropOpt params "timeout") = false ∨
        (atLeast engine env.numToString (getPropOpt params "timeout") 60000 = true ∧
          atMost engine env.numToString (getPropOpt params "timeout") 3600000 = true)) →
      (truthy (getPropOpt params "notes") = false ∨
        atMost engine env.numToString (getLength (getPropOpt params "notes")) 2000 = true) →
      (truthy (getPropOpt params "callback_url") = false ∨
        isValidUrl engine env.numToString (getPropOpt params "callback_url") = true) →
      (truthy (getPropOpt params "return_url") = false ∨
        isValidUrl engine env.numToString (getPropOpt params "return_url") = true) →
      createValidatedTransaction engine env self params =
        createTransaction env self params) ∧
    (∀ n : JSNum, truthy (.num n) = true →
      ((lessThan engine env.numToString (.num n) 60000 = true ∨
          greaterThan engine env.numToString (.num n) 3600000 = true) ↔
        ¬ (atLeast engine env.numToString (.num n) 60000 = true ∧
          atMost engine env.numToString (.num n) 3600000 = true))) ∧
    (∀ s : String,
      (greaterThan engine env.numToString (getLength (.str s)) 2000 = true ↔
        2000 < utf16Length s) ∧
      (atMost engine env.numToString (getLength (.str s)) 2000 = true ↔
        utf16Length s ≤ 2000)) := by
  refine ⟨?_, ?_, fun n hn => range_reading engine env.numToString n hn, ?_⟩
  · intro hbad
    cases hnull : isNullish params with
    | true =>
      have he := validateParams_nullish engine env.numToString params hnull
      simp [createValidatedTransaction, he, rejectEarly]
    | false =>
      have hv := validateParams_eq engine env.numToString params _ _ _ _ _
        (getProp_eq_getPropOpt params "amount" hnull)
        (getProp_eq_getPropOpt params "timeout" hnull)
        (getProp_eq_getPropOpt params "notes" hnull)
        (getProp_eq_getPropOpt params "callback_url" hnull)
        (getProp_eq_getPropOpt params "return_url" hnull)
      have herr : ∃ e, validateParams engine env.numToString params = .error e := by
        rw [hv]
        rcases hbad with h | h | ⟨ht, hrange⟩ | ⟨hn, hlen⟩
        · simp [h]
        · simp only [lessThan] at h
          simp [h]
        · have hg2 : (truthy (getPropOpt params "timeout") &&
              (numLt (toNumberJS engine env.numToString
                (getPropOpt params "timeout")) (.fin 60000) ||
               numLt (.fin 3600000) (toNumberJS engine env.numToString
                (getPropOpt params "timeout")))) = true := by
            simp only [lessThan, greaterThan] at hrange
            rcases hrange with h | h <;> simp [ht, h]
          simp only [hg2, if_true]
          split <;> exact ⟨_, rfl⟩
        · have hg3 : (truthy (getPropOpt params "notes") &&
              numLt (.fin 2000) (toNumberJS engine env.numToString
                (getLength (getPropOpt params "notes")))) = true := by
            simp only [greaterThan] at hlen
            simp [hn, hlen]
          simp only [hg3, if_true]
          repeat' split
          all_goals exact ⟨_, rfl⟩
      obtain ⟨e, he⟩ := herr
      obtain ⟨msg, rfl⟩ := validateParams_error_shape engine env.numToString params e hnull he
      simp [createValidatedTransaction, he, rejectEarly]
  · intro hamount htime hnotes hcb hru
    have hnull : isNullish params = false := by
      cases hn : isNullish params with
      | false => rfl
      | true =>
        rw [(getPropOpt_nullish params "amount" hn).1] at hamount
        simp [atLeast, toNumberJS, numLe] at hamount
    have hv := validateParams_eq engine env.numToString params _ _ _ _ _
      (getProp_eq_getPropOpt params "amount" hnull)
      (getProp_eq_getPropOpt params "timeout" hnull)
      (getProp_eq_getPropOpt params "notes" hnull)
      (getProp_eq_getPropOpt params "callback_url" hnull)
      (getProp_eq_getPropOpt params "return_url" hnull)
    have hok : validateParams engine env.numToString params = .ok () := by
      rw [hv]
      have g1 : (!truthy (getPropOpt params "amount") ||
          numLt (toNumberJS engine env.numToString
            (getPropOpt params "amount")) (.fin 1)) = false := by
        have h1 := truthy_of_atLeast_one engine env.numToString _ hempty hamount
        have h2 := numLt_false_of_numLe hamount
        simp [h1, h2]
      have g2 : (truthy (getPropOpt params "timeout") &&
          (numLt (toNumberJS engine env.numToString
            (getPropOpt params "timeout")) (.fin 60000) ||
           numLt (.fin 3600000) (toNumberJS engine env.numToString
            (getPropOpt params "timeout")))) = false := by
        rcases htime with h | ⟨h1, h2⟩
        · simp [h]
        · simp [numLt_false_of_numLe h1, numLt_false_of_numLe h2]
      have g3 : (truthy (getPropOpt params "notes") &&
          numLt (.fin 2000) (toNumberJS engine env.numToString
            (getLength (getPropOpt params "notes")))) = false := by
        rcases hnotes with h | h
        · simp [h]
        · simp [numLt_false_of_numLe h]
      have g4 : (truthy (getPropOpt params "callback_url") &&
          !isValidUrl engine env.numToString
            (getPropOpt params "callback_url")) = false := by
        rcases hcb with h | h <;> simp [h]
      have g5 : (truthy (getPropOpt params "return_url") &&
          !isValidUrl engine env.numToString
            (getPropOpt params "return_url")) = false := by
        rcases hru with h | h <;> simp [h]
      simp [g1, g2, g3, g4, g5]
    simp [createValidatedTransaction, hok]
  · intro s
    constructor
    · simp [greaterThan, getLength, toNumberJS, numLt]
    · simp [atMost, getLength, toNumberJS, numLe, numLt]

/-- Witness of the amended C27: a timeout of 5 ms, the string amount `0.5`, a timeout of
minus infinity and the params `null` are rejected without a request, and the request of the
validation example passes through. -/
theorem createValidatedTransaction_guards_witness :
    (createValidatedTransaction sampleEngine (sampleEnv .unanswered) sampleClient
        (.obj [("amount", .num (.fin 1)), ("timeout", .num (.fin 5))])).sent = [] ∧
      (createValidatedTransaction sampleEngine (sampleEnv .unanswered) sampleClient
        (.obj [("amount", .str "0.5")])).sent = [] ∧
      (createValidatedTransaction sampleEngine (sampleEnv .unanswered) sampleClient
        (.obj [("amount", .num (.fin 1)), ("timeout", .num (.inf true))])).sent = [] ∧
      (createValidatedTransaction sampleEngine (sampleEnv .unanswered) sampleClient
        .null).sent = [] ∧
      createValidatedTransaction sampleEngine (sampleEnv .unanswered) sampleClient
          (.obj validatedParams) =
        createTransaction (sampleEnv .unanswered) sampleClient (.obj validatedParams) :=
  ⟨((createValidatedTransaction_guards sampleEngine (sampleEnv .unanswered) sampleClient
      (.obj [("amount", .num (.fin 1)), ("timeout", .num (.fin 5))]) rfl).1
      (Or.inr (Or.inr (Or.inl ⟨rfl, Or.inl rfl⟩)))).1,
    ((createValidatedTransaction_guards sampleEngine (sampleEnv .unanswered) sampleClient
      (.obj [("amount", .str "0.5")]) rfl).1
      (Or.inr (Or.inl (by
        simp [lessThan, toNumberJS, getPropOpt, getProp, pure, Except.pure, lookupField,
          sampleEngine, numLt]
        norm_num)))).1,
    ((createValidatedTransaction_guards sampleEngine (sampleEnv .unanswered) sampleClient
      (.obj [("amount", .num (.fin 1)), ("timeout", .num (.inf true))]) rfl).1
      (Or.inr (Or.inr (Or.inl ⟨rfl, Or.inl rfl⟩)))).1,
    ((createValidatedTransaction_guards sampleEngine (sampleEnv .unanswered) sampleClient
      .null rfl).1 (Or.inl rfl)).1,
    (createValidatedTransaction_guards sampleEngine (sampleEnv .unanswered) sampleClient
      (.obj validatedParams) rfl).2.1 rfl (Or.inl rfl) (Or.inr rfl) (Or.inr rfl) (Or.inl rfl)⟩

/-- C28, at the failing input: for a 500 response whose body is `null`, and likewise for
an absent body, what the mapping throws is the `TypeError` of reading `message` from the
body, which has no `status`; for an empty-string body the status 500 is carried. -/
theorem error_response_null_body :
    (∀ req, axiosRequest (sampleEnv (.answered 500 .null)) sampleClient req = .error typeError) ∧
    (∀ req, axiosRequest (sampleEnv (.answered 500 .undefined)) sampleClient req =
      .error typeError) ∧
    (createTransaction (sampleEnv (.answered 500 .null)) sampleClient
      (.obj [("amount", .num (.fin 50000))])).result = .error typeError ∧
    getProp typeError "status" = .ok .undefined ∧
    hasOwn typeError "status" = false ∧
    (∃ err, axiosRequest (sampleEnv (.answered 500 (.str ""))) sampleClient
        { method := "GET", url := "/api/qris/transaction/TRX1", data := none, config := none } =
          .error err ∧
      getProp err "status" = .ok (.num (.fin ((500 : ℤ) : ℚ)))) := by
  refine ⟨fun req => rfl, fun req => rfl, rfl, rfl, rfl, ⟨_, rfl, rfl⟩⟩

/-- C29: for a fixed client, two pairs of strings whose transaction ids contain no `?`
and for which `getPaymentUrl` returns the same URL are equal; and the different pairs
`("a?key=b", "c")` and `("a", "b?key=c")` get the same URL. -/
theorem getPaymentUrl_injective (env : Env) (self : Client) :
    (∀ (t1 k1 t2 k2 : String) (u : JSVal), '?' ∉ t1.data → '?' ∉ t2.data →
      (getPaymentUrl env self (.str t1) (.str k1)).result = .ok u →
      (getPaymentUrl env self (.str t2) (.str k2)).result = .ok u →
      t1 = t2 ∧ k1 = k2) ∧
    ((getPaymentUrl env self (.str "a?key=b") (.str "c")).result =
        (getPaymentUrl env self (.str "a") (.str "b?key=c")).result ∧
      (∃ u, (getPaymentUrl env self (.str "a?key=b") (.str "c")).result = .ok (.str u)) ∧
      ("a?key=b", "c") ≠ ("a", "b?key=c")) := by
  refine ⟨?_, ?_, ?_, ?_⟩
  · intro t1 k1 t2 k2 u h1 h2 hu1 hu2
    by_cases ht1 : truthy (.str t1) = true ∧ truthy (.str k1) = true
    · by_cases ht2 : truthy (.str t2) = true ∧ truthy (.str k2) = true
      · simp only [getPaymentUrl, ht1.1, ht1.2, ht2.1, ht2.2, toStringJS] at hu1 hu2
        simp at hu1 hu2
        rw [← hu2] at hu1
        simp only [JSVal.str.injEq] at hu1
        exact url_parts_injective _ _ _ _ _ h1 h2 hu1
      · exfalso
        have : truthy (.str t2) = false ∨ truthy (.str k2) = false := by
          cases h : truthy (.str t2) <;> cases h' : truthy (.str k2) <;> simp_all
        rcases this with h | h <;> simp [getPaymentUrl, h, rejectEarly] at hu2
    · exfalso
      have : truthy (.str t1) = false ∨ truthy (.str k1) = false := by
        cases h : truthy (.str t1) <;> cases h' : truthy (.str k1) <;> simp_all
      rcases this with h | h <;> simp [getPaymentUrl, h, rejectEarly] at hu1
  · have e1 : truthy (.str "a?key=b") = true := rfl
    have e2 : truthy (.str "c") = true := rfl
    have e3 : truthy (.str "a") = true := rfl
    have e4 : truthy (.str "b?key=c") = true := rfl
    simp only [getPaymentUrl, e1, e2, e3, e4, toStringJS]
    simp [String.append_assoc]
  · have e1 : truthy (.str "a?key=b") = true := rfl
    have e2 : truthy (.str "c") = true := rfl
    exact ⟨toStringJS env.numToString self.baseURL ++ "/transaction/" ++ "a?key=b" ++ "?key=" ++
      "c", by simp only [getPaymentUrl, e1, e2, toStringJS]; simp⟩
  · decide

/-- Witness of C29: the hypotheses hold for the ids `TRX1` and `K1`. -/
theorem getPaymentUrl_injective_witness :
    "TRX1" = "TRX1" ∧ "K1" = "K1" :=
  (getPaymentUrl_injective (sampleEnv .unanswered) sampleClient).1 "TRX1" "K1" "TRX1" "K1"
    (.str "https://web.btzpay.my.id/transaction/TRX1?key=K1") (by decide) (by decide) rfl rfl

/-- C30: under every network behaviour `pollTransactionStatus` ends after at most
`maxAttempts` calls of `getTransaction` (30 by default), failed calls counting as
attempts; and when no call returned a record with a terminal status (and `onUpdate`, if
given, throws no `null` or `undefined`) it has made exactly `maxAttempts` calls and
throws `Transaction status polling timeout`. -/
theorem pollTransactionStatus_bounded (world : ℕ → Env) (self : Client)
    (transactionId accessKey : JSVal) (options : PollOptions) :
    (pollTransactionStatus world self transactionId accessKey options).calls ≤
        options.maxAttempts.getD 30 ∧
      (pollTransactionStatus world self transactionId accessKey options).sent.length ≤
        options.maxAttempts.getD 30 ∧
      ((∀ f, options.onUpdate = some f → ∀ s d e, f s d = .error e → isNullish e = false) →
        (∀ i details data status, 1 ≤ i → i ≤ options.maxAttempts.getD 30 →
          (getTransaction (world i) self transactionId accessKey).result = .ok details →
          getProp details "data" = .ok data → getProp data "status" = .ok status →
          isTerminalStatus status = false) →
        (pollTransactionStatus world self transactionId accessKey options).result =
            .error (errorWithMessage "Transaction status polling timeout") ∧
          (pollTransactionStatus world self transactionId accessKey options).calls =
            options.maxAttempts.getD 30) := by
  refine ⟨(pollLoop_bounded _ _ _ _ _ _ _).1, (pollLoop_bounded _ _ _ _ _ _ _).2, ?_⟩
  intro hup hterm
  apply pollLoop_all_next
  intro i h1 h2
  apply pollAttempt_next _ _ _ hup
  · intro details data status hr hd hs
    exact hterm i details data status h1 (by omega) hr hd hs
  · intro e he
    exact getTransaction_error_not_nullish _ _ _ _ _ he

/-- Witness of C30: three attempts that all get no answer end in the polling timeout. -/
theorem pollTransactionStatus_bounded_witness :
    (pollTransactionStatus (fun _ => sampleEnv .unanswered) sampleClient (.str "TRX1")
        (.str "K1") { maxAttempts := some 3, intervalMs := none, onUpdate := none }).result =
      .error (errorWithMessage "Transaction status polling timeout") ∧
    (pollTransactionStatus (fun _ => sampleEnv .unanswered) sampleClient (.str "TRX1")
        (.str "K1") { maxAttempts := some 3, intervalMs := none, onUpdate := none }).calls = 3 :=
  (pollTransactionStatus_bounded (fun _ => sampleEnv .unanswered) sampleClient (.str "TRX1")
    (.str "K1") { maxAttempts := some 3, intervalMs := none, onUpdate := none }).2.2
    (fun _ h => nomatch h)
    (fun i details data status _ _ hr _ _ => by
      have e : (getTransaction (sampleEnv .unanswered) sampleClient (.str "TRX1")
          (.str "K1")).result = .error (errorWithMessage "No response from server") := rfl
      rw [e] at hr
      cases hr)

end BetabotzPaygate
